import Mathlib

/-!
Verification development for the `erst` local Soroban-style smart-contract
simulator (crate `simulator`).  The Rust sources are shallowly embedded:
pure functions become Lean functions over `Nat` (machine integers are `Nat`
with explicit saturation at `2 ^ 64 - 1` where the source uses `u64`
saturating arithmetic), fallible code returns `Option` / `Except`, and the
`main` response-emission logic becomes a total function from a dispatch
outcome to a `SimulationResponse` record.  External binary formats (XDR,
DWARF, base64) are abstracted at their call boundary: their decoders appear
as explicit function arguments, and foreign values carry their Rust `Debug`
rendering as a plain string.
-/

/-! ## Machine integers: u64 modelled as Nat with explicit saturation -/

/-- Largest value of a Rust `u64`. -/
def U64MAX : Nat := 2 ^ 64 - 1

/-- Rust `u64::saturating_add`. -/
def satAdd (a b : Nat) : Nat := min (a + b) U64MAX

/-- Rust `u64::saturating_mul`. -/
def satMul (a b : Nat) : Nat := min (a * b) U64MAX

/-! ## String helpers mirroring the Rust `str` methods used by the sources -/

/-- Decides whether the list `p` is a prefix of the list `l`
(Rust `str::starts_with`, at the character-list level). -/
def listIsPre : List Char → List Char → Bool
  | [], _ => true
  | _ :: _, [] => false
  | a :: as, b :: bs => a == b && listIsPre as bs

/-- Substring search on character lists: does `p` occur in `l`
(Rust `str::contains`)? -/
def strContainsCore : List Char → List Char → Bool
  | [], p => p.isEmpty
  | a :: t, p => listIsPre p (a :: t) || strContainsCore t p

/-- Rust `str::contains` with a string pattern. -/
def strContains (s pat : String) : Bool := strContainsCore s.data pat.data

/-- Rust `str::starts_with` with a string pattern. -/
def strStartsWith (s pat : String) : Bool := listIsPre pat.data s.data

/-- Splits `s` at the first occurrence of `pat`, like Rust
`str::split_once` / `str::find` followed by slicing; `none` when `pat`
does not occur. -/
def splitFirst (s pat : String) : Option (String × String) :=
  match s.splitOn pat with
  | [] => none
  | [_] => none
  | x :: rest => some (x, String.intercalate pat rest)

/-- Rust `str::trim_matches(c)`: strips leading and trailing runs of the
character `c`. -/
def trimMatches (c : Char) (s : String) : String :=
  String.mk (((s.data.dropWhile (· == c)).reverse.dropWhile (· == c)).reverse)

/-- Rust `str::trim_start_matches(c)`. -/
def trimStartMatches (c : Char) (s : String) : String :=
  String.mk (s.data.dropWhile (· == c))

/-- Value of an ASCII hexadecimal digit, `none` for other characters. -/
def hexDigitVal (c : Char) : Option Nat :=
  if '0' ≤ c ∧ c ≤ '9' then some (c.toNat - '0'.toNat)
  else if 'a' ≤ c ∧ c ≤ 'f' then some (c.toNat - 'a'.toNat + 10)
  else if 'A' ≤ c ∧ c ≤ 'F' then some (c.toNat - 'A'.toNat + 10)
  else none

/-- Folds hexadecimal digits left to right; `none` on a non-digit. -/
def hexFold : List Char → Nat → Option Nat
  | [], acc => some acc
  | c :: rest, acc =>
    match hexDigitVal c with
    | some d => hexFold rest (acc * 16 + d)
    | none => none

/-- Rust `u64::from_str_radix(s, 16)`: fails on an empty string, a
non-hex-digit, or a value exceeding `u64::MAX`. -/
def hexParseU64 (s : String) : Option Nat :=
  if s.isEmpty then none
  else match hexFold s.data 0 with
    | some v => if v ≤ U64MAX then some v else none
    | none => none

/-- Rust `str::parse::<u64>()`: decimal with a `u64` range check. -/
def decParseU64 (s : String) : Option Nat :=
  match s.toNat? with
  | some v => if v ≤ U64MAX then some v else none
  | none => none

/-- Rust `char::is_ascii_hexdigit`. -/
def isAsciiHexDigit (c : Char) : Bool := (hexDigitVal c).isSome

/-! ## Foreign (soroban-env-host) values

XDR values, hashes and host values only ever reach the simulator's output
through their Rust `Debug` rendering (`format!("{:?}", v)`), so they are
modelled as that rendering. -/

/-- Rendering of a foreign value through Rust `Debug` formatting. -/
structure Dbg where
  fmt : String
deriving DecidableEq

/-- Event type tag of `soroban_env_host::xdr::ContractEventType`. -/
inductive ContractEventType
  | contract
  | system
  | diagnostic
deriving DecidableEq

/-- Body-relevant part of `soroban_env_host::xdr::ContractEvent` (the
`V0` body's topics and data, rendered values). -/
structure ContractEvent where
  contract_id : Option Dbg
  type_ : ContractEventType
  topics : List Dbg
  data : Dbg
deriving DecidableEq

/-- A `soroban_env_host::events::HostEvent`. -/
structure HostEvent where
  failed_call : Bool
  event : ContractEvent
deriving DecidableEq

/-- The simulator's `types::DiagnosticEvent`. -/
structure DiagnosticEvent where
  event_type : String
  contract_id : Option String
  topics : List String
  data : String
  in_successful_contract_call : Bool
  wasm_instruction : Option String
deriving DecidableEq

/-- The simulator's `types::CategorizedEvent`. -/
structure CategorizedEvent where
  category : String
  event : DiagnosticEvent
deriving DecidableEq

/-- Lowercase event type label used for `DiagnosticEvent.event_type`
(`main.rs`, both in `categorize_events` and on the success path). -/
def eventTypeLabel : ContractEventType → String
  | .contract => "contract"
  | .system => "system"
  | .diagnostic => "diagnostic"

/-- Capitalised category label used for `CategorizedEvent.category`
(`main.rs:categorize_events`). -/
def categoryLabel : ContractEventType → String
  | .contract => "Contract"
  | .system => "System"
  | .diagnostic => "Diagnostic"

/-- Embeds `main.rs:extract_wasm_instruction`: when some topic mentions
budget/instruction, take the text after the literal `Instruction:` in the
data field, trimmed of whitespace and quote characters. -/
def extract_wasm_instruction (topics : List String) (data : String) : Option String :=
  let hasBudgetTopic := topics.any fun topic =>
    let lower := topic.toLower
    strContains lower "budget" || strContains lower "instruction"
  if !hasBudgetTopic then none
  else
    match splitFirst data "Instruction:" with
    | none => none
    | some (_, after) =>
      -- trim, then trim_matches('"'), then trim_matches('\''); the two
      -- quote characters are written by code point (34 and 39)
      let instr := trimMatches (Char.ofNat 39) (trimMatches (Char.ofNat 34) after.trim)
      if instr.isEmpty then none else some instr

/-- Builds a `DiagnosticEvent` from a host event exactly as both event
paths of `main.rs` do (the success-path loop and `categorize_events`
compute identical fields). -/
def diagnosticEventOf (e : HostEvent) : DiagnosticEvent :=
  let topics := e.event.topics.map Dbg.fmt
  let data := e.event.data.fmt
  { event_type := eventTypeLabel e.event.type_
    contract_id := e.event.contract_id.map Dbg.fmt
    topics := topics
    data := data
    in_successful_contract_call := !e.failed_call
    wasm_instruction := extract_wasm_instruction topics data }

/-- Embeds `main.rs:categorize_events`. -/
def categorize_events (events : List HostEvent) : List CategorizedEvent :=
  events.map fun e =>
    { category := categoryLabel e.event.type_
      event := diagnosticEventOf e }

/-- Success-path structured events (`main.rs`, `Ok(Ok(..))` arm): one
`DiagnosticEvent` per host event. -/
def diagnosticEventsOf (events : List HostEvent) : List DiagnosticEvent :=
  events.map diagnosticEventOf

/-- Raw event string on the success path: `format!("{:?}", e)` of a
`HostEvent`; modelled as a canonical rendering of the embedded fields. -/
def hostEventDbg (e : HostEvent) : String :=
  "HostEvent \x7b failed_call: " ++ (if e.failed_call then "true" else "false")
    ++ ", event: " ++ e.event.data.fmt ++ " \x7d"

/-! ## WASM validator (`vm.rs`)

The module is embedded structurally: a parsed WASM module is the sequence
of its `wasmparser` payloads, a code-section entry being the list of its
operators.  The `wasmparser::Operator` enum is embedded with one
constructor per scalar or 128-bit SIMD floating-point operator of
WebAssembly 2.0 — both the operators `vm.rs:is_float_op` matches and the
floating-point operators its `matches!` list omits (scalar float
loads/stores, SIMD f32x4/f64x2 lane access, arithmetic and rounding, and
the SIMD float↔int conversions) — plus `nonFloat` for every
non-floating-point operator (integer, control, memory, reference, ...),
identified by its name. -/

/-- Embeds the `wasmparser::Operator` cases relevant to C3.  The first
constructor groups are exactly the operators listed in
`vm.rs:is_float_op`; the groups after them are floating-point operators
of the `wasmparser` enum that `is_float_op` does not match; `nonFloat`
stands for any operator that is not a floating-point operator. -/
inductive Operator
  | f32Abs | f32Neg | f32Ceil | f32Floor | f32Trunc | f32Nearest | f32Sqrt
  | f32Add | f32Sub | f32Mul | f32Div | f32Min | f32Max | f32Copysign
  | f32Eq | f32Ne | f32Lt | f32Gt | f32Le | f32Ge
  | f32ConvertI32S | f32ConvertI32U | f32ConvertI64S | f32ConvertI64U
  | f32DemoteF64 | f32ReinterpretI32
  | f32x4Splat | f32x4Eq | f32x4Ne | f32x4Lt | f32x4Gt | f32x4Le | f32x4Ge
  | f32Const (bits : Nat)
  | f64Abs | f64Neg | f64Ceil | f64Floor | f64Trunc | f64Nearest | f64Sqrt
  | f64Add | f64Sub | f64Mul | f64Div | f64Min | f64Max | f64Copysign
  | f64Eq | f64Ne | f64Lt | f64Gt | f64Le | f64Ge
  | f64ConvertI32S | f64ConvertI32U | f64ConvertI64S | f64ConvertI64U
  | f64PromoteF32 | f64ReinterpretI64
  | f64x2Splat | f64x2Eq | f64x2Ne | f64x2Lt | f64x2Gt | f64x2Le | f64x2Ge
  | f64Const (bits : Nat)
  | i32TruncF32S | i32TruncF32U | i32TruncF64S | i32TruncF64U
  | i64TruncF32S | i64TruncF32U | i64TruncF64S | i64TruncF64U
  | i32TruncSatF32S | i32TruncSatF32U | i32TruncSatF64S | i32TruncSatF64U
  | i64TruncSatF32S | i64TruncSatF32U | i64TruncSatF64S | i64TruncSatF64U
  | f32Load | f32Store | f64Load | f64Store
  | f32x4ExtractLane (lane : Nat) | f32x4ReplaceLane (lane : Nat)
  | f64x2ExtractLane (lane : Nat) | f64x2ReplaceLane (lane : Nat)
  | f32x4Abs | f32x4Neg | f32x4Sqrt | f32x4Add | f32x4Sub | f32x4Mul | f32x4Div
  | f32x4Min | f32x4Max | f32x4Pmin | f32x4Pmax
  | f32x4Ceil | f32x4Floor | f32x4Trunc | f32x4Nearest
  | f64x2Abs | f64x2Neg | f64x2Sqrt | f64x2Add | f64x2Sub | f64x2Mul | f64x2Div
  | f64x2Min | f64x2Max | f64x2Pmin | f64x2Pmax
  | f64x2Ceil | f64x2Floor | f64x2Trunc | f64x2Nearest
  | f32x4ConvertI32x4S | f32x4ConvertI32x4U
  | f64x2ConvertLowI32x4S | f64x2ConvertLowI32x4U
  | i32x4TruncSatF32x4S | i32x4TruncSatF32x4U
  | i32x4TruncSatF64x2SZero | i32x4TruncSatF64x2UZero
  | f32x4DemoteF64x2Zero | f64x2PromoteLowF32x4
  | nonFloat (name : String)

/-- Embeds `vm.rs:is_float_op`: `true` exactly on the operators of the
source's `matches!` arm list, `false` on every other operator — in
particular on the floating-point operators the list omits. -/
def is_float_op : Operator → Bool
  | .f32Abs | .f32Neg | .f32Ceil | .f32Floor | .f32Trunc | .f32Nearest | .f32Sqrt
  | .f32Add | .f32Sub | .f32Mul | .f32Div | .f32Min | .f32Max | .f32Copysign
  | .f32Eq | .f32Ne | .f32Lt | .f32Gt | .f32Le | .f32Ge
  | .f32ConvertI32S | .f32ConvertI32U | .f32ConvertI64S | .f32ConvertI64U
  | .f32DemoteF64 | .f32ReinterpretI32
  | .f32x4Splat | .f32x4Eq | .f32x4Ne | .f32x4Lt | .f32x4Gt | .f32x4Le | .f32x4Ge
  | .f32Const _
  | .f64Abs | .f64Neg | .f64Ceil | .f64Floor | .f64Trunc | .f64Nearest | .f64Sqrt
  | .f64Add | .f64Sub | .f64Mul | .f64Div | .f64Min | .f64Max | .f64Copysign
  | .f64Eq | .f64Ne | .f64Lt | .f64Gt | .f64Le | .f64Ge
  | .f64ConvertI32S | .f64ConvertI32U | .f64ConvertI64S | .f64ConvertI64U
  | .f64PromoteF32 | .f64ReinterpretI64
  | .f64x2Splat | .f64x2Eq | .f64x2Ne | .f64x2Lt | .f64x2Gt | .f64x2Le | .f64x2Ge
  | .f64Const _
  | .i32TruncF32S | .i32TruncF32U | .i32TruncF64S | .i32TruncF64U
  | .i64TruncF32S | .i64TruncF32U | .i64TruncF64S | .i64TruncF64U
  | .i32TruncSatF32S | .i32TruncSatF32U | .i32TruncSatF64S | .i32TruncSatF64U
  | .i64TruncSatF32S | .i64TruncSatF32U | .i64TruncSatF64S | .i64TruncSatF64U => true
  | _ => false

/-- A `wasmparser` payload, as consumed by
`vm.rs:enforce_soroban_compatibility`: only code-section entries are
inspected. -/
inductive Payload
  | codeSectionEntry (ops : List Operator)
  | otherSection

/-- Operator scan of one code-section body (the inner `while !ops.eof()`
loop of `vm.rs:enforce_soroban_compatibility`). -/
def scanOps : List Operator → Except String Unit
  | [] => .ok ()
  | op :: rest =>
    if is_float_op op then
      .error "floating-point instructions are not allowed under strict Soroban compatibility"
    else scanOps rest

/-- Embeds `vm.rs:enforce_soroban_compatibility` over a structurally
parsed module (byte-level `wasmparser` parse failures are outside this
structural model). -/
def enforce_soroban_compatibility : List Payload → Except String Unit
  | [] => .ok ()
  | .codeSectionEntry ops :: rest =>
    match scanOps ops with
    | .error e => .error e
    | .ok () => enforce_soroban_compatibility rest
  | .otherSection :: rest => enforce_soroban_compatibility rest

/-- Specification-side enumeration of the operators named in the
`matches!` list of `vm.rs:is_float_op` (scalar f32/f64 arithmetic,
comparison, conversion and constant operators; the f32x4/f64x2 `splat`
and comparison operators; the scalar float→int truncations), written
independently of the source function for the amended C3. -/
def isVmListedFloatOp : Operator → Bool
  | .f32Abs | .f32Neg | .f32Ceil | .f32Floor | .f32Trunc | .f32Nearest | .f32Sqrt
  | .f32Add | .f32Sub | .f32Mul | .f32Div | .f32Min | .f32Max | .f32Copysign
  | .f32Eq | .f32Ne | .f32Lt | .f32Gt | .f32Le | .f32Ge
  | .f32ConvertI32S | .f32ConvertI32U | .f32ConvertI64S | .f32ConvertI64U
  | .f32DemoteF64 | .f32ReinterpretI32
  | .f32x4Splat | .f32x4Eq | .f32x4Ne | .f32x4Lt | .f32x4Gt | .f32x4Le | .f32x4Ge
  | .f32Const _
  | .f64Abs | .f64Neg | .f64Ceil | .f64Floor | .f64Trunc | .f64Nearest | .f64Sqrt
  | .f64Add | .f64Sub | .f64Mul | .f64Div | .f64Min | .f64Max | .f64Copysign
  | .f64Eq | .f64Ne | .f64Lt | .f64Gt | .f64Le | .f64Ge
  | .f64ConvertI32S | .f64ConvertI32U | .f64ConvertI64S | .f64ConvertI64U
  | .f64PromoteF32 | .f64ReinterpretI64
  | .f64x2Splat | .f64x2Eq | .f64x2Ne | .f64x2Lt | .f64x2Gt | .f64x2Le | .f64x2Ge
  | .f64Const _
  | .i32TruncF32S | .i32TruncF32U | .i32TruncF64S | .i32TruncF64U
  | .i64TruncF32S | .i64TruncF32U | .i64TruncF64S | .i64TruncF64U
  | .i32TruncSatF32S | .i32TruncSatF32U | .i32TruncSatF64S | .i32TruncSatF64U
  | .i64TruncSatF32S | .i64TruncSatF32U | .i64TruncSatF64S | .i64TruncSatF64U => true
  | _ => false

/-- Claim-side predicate in the sense of C3's wording: any scalar
f32/f64 operation, any SIMD f32x4/f64x2 operation, or any float↔int
conversion/truncation operation — that is, every constructor of
`Operator` other than `nonFloat`. -/
def isFloatOperator : Operator → Bool
  | .nonFloat _ => false
  | _ => true

/-- The module's code section contains an operator of the `vm.rs` match
list. -/
def moduleHasListedFloatOp (m : List Payload) : Bool :=
  m.any fun p =>
    match p with
    | .codeSectionEntry ops => ops.any isVmListedFloatOp
    | .otherSection => false

/-- The module's code section contains a floating-point operator in the
claim's sense. -/
def moduleHasFloatOperator (m : List Payload) : Bool :=
  m.any fun p =>
    match p with
    | .codeSectionEntry ops => ops.any isFloatOperator
    | .otherSection => false

/-! ## Transaction envelope and operations (`main.rs`)

The XDR `TransactionEnvelope` is embedded with its three shapes; only the
fee and the operation list are consumed by the simulator. -/

/-- Host function of an `InvokeHostFunction` operation; for
`InvokeContract` the rendered function name is kept, any other host
function is represented by its `name()`. -/
inductive HostFunction
  | invokeContract (function_name : Dbg)
  | otherHostFunction (name : String)
deriving DecidableEq

/-- Operation body: `InvokeHostFunction` or any other operation
represented by its `name()`. -/
inductive OperationBody
  | invokeHostFunction (host_function : HostFunction)
  | otherOperation (name : String)
deriving DecidableEq

/-- An `xdr::Operation` (only the body is consumed). -/
structure Operation where
  body : OperationBody
deriving DecidableEq

/-- The three shapes of `xdr::TransactionEnvelope` (v0, v1,
fee-bump-wrapping-v1), reduced to the fee and operations consumed by
`main.rs`. -/
inductive TransactionEnvelope
  | tx (fee : Nat) (operations : List Operation)
  | txV0 (fee : Nat) (operations : List Operation)
  | txFeeBump (fee : Nat) (innerOperations : List Operation)
deriving DecidableEq

/-- Embeds `main.rs:transaction_fee_stroops`. -/
def transaction_fee_stroops : TransactionEnvelope → Nat
  | .tx fee _ => fee
  | .txV0 fee _ => fee
  | .txFeeBump fee _ => fee

/-- Operation extraction of `main.rs` (the `match &envelope` at the
dispatch site, including the fee-bump inner transaction). -/
def envelopeOperations : TransactionEnvelope → List Operation
  | .tx _ ops => ops
  | .txV0 _ ops => ops
  | .txFeeBump _ ops => ops

/-! ## Request and response types (`types.rs`) -/

/-- The simulator's `types::ResourceCalibration`. -/
structure ResourceCalibration where
  sha256_fixed : Nat
  sha256_per_byte : Nat
  keccak256_fixed : Nat
  keccak256_per_byte : Nat
  ed25519_fixed : Nat
deriving DecidableEq

/-- Opaque `serde_json::Value` (the `restore_preamble` field is never
consumed by `main.rs`). -/
structure JsonValue where
  rendered : String
deriving DecidableEq

/-- The simulator's `types::SimulationRequest` after deserialization.
`ledger_entries` is the map's pair list. -/
structure SimulationRequest where
  envelope_xdr : String
  result_meta_xdr : String
  ledger_entries : Option (List (String × String))
  contract_wasm : Option String
  wasm_path : Option String
  enable_optimization_advisor : Bool
  profile : Option Bool
  timestamp : String
  mock_base_fee : Option Nat
  mock_gas_price : Option Nat
  enable_coverage : Bool
  coverage_lcov_path : Option String
  resource_calibration : Option ResourceCalibration
  memory_limit : Option Nat
  restore_preamble : Option JsonValue
deriving DecidableEq

/-- The simulator's `types::StructuredError`. -/
structure StructuredError where
  error_type : String
  message : String
  details : Option String
deriving DecidableEq

/-- The simulator's `types::BudgetUsage`.  The two `f64` percentage
fields of the source (`cpu_usage_percent`, `memory_usage_percent`) are
floating-point and are not modelled. -/
structure BudgetUsage where
  cpu_instructions : Nat
  memory_bytes : Nat
  operations_count : Nat
  cpu_limit : Nat
  memory_limit : Nat
deriving DecidableEq

/-- Opaque `gas_optimizer::OptimizationReport` (the advisor's scoring is
`f64` arithmetic and none of its content is inspected by the claims; the
report participates in responses as an opaque value). -/
structure OptimizationReport where
  rendered : String
deriving DecidableEq

/-! ## Stack traces (`stack_trace.rs`) -/

/-- The simulator's `stack_trace::StackFrame`. -/
structure StackFrame where
  index : Nat
  func_index : Option Nat
  func_name : Option String
  wasm_offset : Option Nat
  module : Option String
deriving DecidableEq

/-- The simulator's `stack_trace::TrapKind`. -/
inductive TrapKind
  | outOfBoundsMemoryAccess
  | outOfBoundsTableAccess
  | integerOverflow
  | integerDivisionByZero
  | invalidConversionToInt
  | unreachable
  | stackOverflow
  | indirectCallTypeMismatch
  | undefinedElement
  | hostError (msg : String)
  | unknown (msg : String)
deriving DecidableEq

/-- The simulator's `stack_trace::WasmStackTrace`. -/
structure WasmStackTrace where
  trap_kind : TrapKind
  raw_message : String
  frames : List StackFrame
  soroban_wrapped : Bool
deriving DecidableEq

/-- Embeds `stack_trace.rs:classify_trap`. -/
def classify_trap (msg : String) : TrapKind :=
  let lower := msg.toLower
  if strContains lower "out of bounds memory" then .outOfBoundsMemoryAccess
  else if strContains lower "out of bounds table" then .outOfBoundsTableAccess
  else if strContains lower "integer overflow" then .integerOverflow
  else if strContains lower "integer division by zero" || strContains lower "division by zero" then
    .integerDivisionByZero
  else if strContains lower "invalid conversion to int" then .invalidConversionToInt
  else if strContains lower "unreachable" then .unreachable
  else if strContains lower "call stack exhausted" || strContains lower "stack overflow" then
    .stackOverflow
  else if strContains lower "indirect call type mismatch" then .indirectCallTypeMismatch
  else if strContains lower "undefined element" || strContains lower "uninitialized element" then
    .undefinedElement
  else if strContains lower "hosterror" || strContains lower "host error" then .hostError msg
  else .unknown msg

/-- Embeds `stack_trace.rs:parse_frame_body`: split on the first `" @ "`
into a name part and an offset part; `func[K]` parses to a function
index, any other non-empty name part is the function name; the offset is
`0x`-prefixed hex or decimal. -/
def parse_frame_body (body : String) : Option String × Option Nat × Option Nat :=
  let (name_part, offset_part) :=
    match splitFirst body " @ " with
    | some (before, after) => (before, some after)
    | none => (body, none)
  let wasm_offset :=
    match offset_part with
    | some off =>
      let off := off.trim
      match splitFirst off "0x" with
      | some (pre, hex) => if pre.isEmpty then hexParseU64 hex else decParseU64 off
      | none => decParseU64 off
    | none => none
  let name_trimmed := name_part.trim
  if strStartsWith name_trimmed "func[" then
    match splitFirst name_trimmed "func[" with
    | some (pre, inner) =>
      if pre.isEmpty then
        match splitFirst inner "]" with
        | some (idx_str, tail) =>
          if tail.isEmpty then (none, idx_str.toNat?, wasm_offset) else (none, none, wasm_offset)
        | none => (none, none, wasm_offset)
      else (none, none, wasm_offset)
    | none => (none, none, wasm_offset)
  else if !name_trimmed.isEmpty then (some name_trimmed, none, wasm_offset)
  else (none, none, wasm_offset)

/-- Embeds `stack_trace.rs:try_parse_numbered_frame` (a line of the shape
`N: body`, the index possibly prefixed by `#`). -/
def try_parse_numbered_frame (line : String) : Option StackFrame :=
  match splitFirst line ":" with
  | none => none
  | some (index_str, rest) =>
    match (trimStartMatches (Char.ofNat 35) index_str.trim).toNat? with
    | none => none
    | some index =>
      let rest := rest.trim
      let (func_name, func_index, wasm_offset) := parse_frame_body rest
      some { index, func_index, func_name, wasm_offset, module := none }

/-- Embeds `stack_trace.rs:try_parse_bare_frame`. -/
def try_parse_bare_frame (line : String) (index : Nat) : Option StackFrame :=
  let (func_name, func_index, wasm_offset) := parse_frame_body line
  if func_name.isSome || func_index.isSome then
    some { index, func_index, func_name, wasm_offset, module := none }
  else none

/-- Line-by-line loop of `stack_trace.rs:extract_frames`. -/
def extractFramesGo (frames : List StackFrame) : List String → List StackFrame
  | [] => frames
  | line :: rest =>
    let trimmed := line.trim
    match try_parse_numbered_frame trimmed with
    | some frame => extractFramesGo (frames ++ [frame]) rest
    | none =>
      if strStartsWith trimmed "func[" || strStartsWith trimmed "<" then
        match try_parse_bare_frame trimmed frames.length with
        | some frame => extractFramesGo (frames ++ [frame]) rest
        | none => extractFramesGo frames rest
      else extractFramesGo frames rest

/-- Embeds `stack_trace.rs:extract_frames` (Rust `str::lines` is modelled
as splitting on the newline character). -/
def extract_frames (error_debug : String) : List StackFrame :=
  extractFramesGo [] (error_debug.splitOn "\n")

/-- Embeds `stack_trace.rs:WasmStackTrace::from_host_error`. -/
def WasmStackTrace.from_host_error (error_debug : String) : WasmStackTrace :=
  { trap_kind := classify_trap error_debug
    raw_message := error_debug
    frames := extract_frames error_debug
    soroban_wrapped := strContains error_debug "HostError"
      || strContains error_debug "ScError" || strContains error_debug "Error(WasmVm" }

/-- Embeds `stack_trace.rs:WasmStackTrace::from_panic`. -/
def WasmStackTrace.from_panic (message : String) : WasmStackTrace :=
  { trap_kind := .unknown message
    raw_message := message
    frames := []
    soroban_wrapped := false }

/-- Embeds `stack_trace.rs:WasmStackTrace::trap_kind_label`. -/
def WasmStackTrace.trap_kind_label (t : WasmStackTrace) : String :=
  match t.trap_kind with
  | .outOfBoundsMemoryAccess => "out of bounds memory access"
  | .outOfBoundsTableAccess => "out of bounds table access"
  | .integerOverflow => "integer overflow"
  | .integerDivisionByZero => "integer division by zero"
  | .invalidConversionToInt => "invalid conversion to integer"
  | .unreachable => "unreachable instruction executed"
  | .stackOverflow => "stack overflow"
  | .indirectCallTypeMismatch => "indirect call type mismatch"
  | .undefinedElement => "undefined table element"
  | .hostError _ => "host error"
  | .unknown _ => "unknown trap"

/-- Rendering of one frame line inside `WasmStackTrace::display`. -/
def displayFrame (frame : StackFrame) : String :=
  let head := "    #" ++ toString frame.index ++ ": "
  let name :=
    match frame.func_name with
    | some n => n
    | none =>
      match frame.func_index with
      | some idx => "func[" ++ toString idx ++ "]"
      | none => "<unknown>"
  let offset :=
    match frame.wasm_offset with
    | some off => " @ 0x" ++ String.mk (Nat.toDigits 16 off)
    | none => ""
  let moduleStr :=
    match frame.module with
    | some m => " in " ++ m
    | none => ""
  head ++ name ++ offset ++ moduleStr ++ "\n"

/-- Embeds `stack_trace.rs:WasmStackTrace::display`. -/
def WasmStackTrace.display (t : WasmStackTrace) : String :=
  let out := "Trap: " ++ t.trap_kind_label ++ "\n"
  let out := out ++ (if t.soroban_wrapped then "  (error passed through Soroban Host layer)\n" else "")
  if t.frames.isEmpty then out ++ "  <no frames captured>\n"
  else out ++ "  Call stack (most recent call last):\n" ++ String.join (t.frames.map displayFrame)

/-! ## Error decoding and offset extraction (`main.rs`) -/

/-- Embeds `main.rs:decode_error` (protocol-21 trap-code phrasing). -/
def decode_error (raw : String) : String :=
  let lower := raw.toLower
  if strContains lower "wasm trap" || strContains lower "vm trap" then
    if strContains lower "out of bounds" || strContains lower "memory access" then
      "VM Trap: Out of Bounds Access (VM Trap: Out of bounds memory access) — the contract read or wrote outside its allocated memory region."
    else if strContains lower "stack overflow" || strContains lower "call stack" then
      "VM Trap: Stack Overflow — the contract exceeded the maximum call-stack depth."
    else if strContains lower "integer overflow" then
      "VM Trap: Integer Overflow — arithmetic exceeded integer bounds."
    else if strContains lower "divide by zero" || strContains lower "division by zero" then
      "VM Trap: Division by Zero — attempted integer division by zero."
    else if strContains lower "unreachable" then
      "VM Trap: Unreachable Instruction — the contract executed an explicit trap or reached dead code."
    else if strContains lower "indirect call" || strContains lower "table" then
      "VM Trap: Indirect-Call Type Mismatch — wrong function signature in call_indirect."
    else "VM Trap: " ++ raw
  else if strContains lower "unreachable" then
    "VM Trap: Unreachable Instruction — the contract executed an explicit trap or reached dead code."
  else if strContains lower "divide by zero" || strContains lower "division by zero" then
    "VM Trap: Division by Zero — attempted integer division by zero."
  else if strContains lower "integer overflow" then
    "VM Trap: Integer Overflow — arithmetic exceeded integer bounds."
  else if strContains lower "stack overflow" || strContains lower "call stack" then
    "VM Trap: Stack Overflow — the contract exceeded the maximum call-stack depth."
  else if strContains lower "auth" || strContains lower "unauthorized" then
    "Authorization failure — a required signer or policy check was not satisfied."
  else if strContains lower "budget" || strContains lower "cpu limit" || strContains lower "mem limit" then
    "Resource limit exceeded — the transaction consumed more CPU instructions or memory than the protocol-21 budget allows."
  else if strContains lower "missing" || strContains lower "not found" then
    "Missing ledger entry — the contract referenced a key that does not exist in the current ledger state."
  else raw

/-- Line loop of `main.rs:extract_wasm_offset`: after the first `@ 0x` of
a line, take the run of hex digits and parse it; on a parse failure move
to the next line. -/
def extractWasmOffsetGo : List String → Option Nat
  | [] => none
  | line :: rest =>
    match splitFirst line "@ 0x" with
    | some (_, after) =>
      let hex := String.mk (after.data.takeWhile isAsciiHexDigit)
      match hexParseU64 hex with
      | some offset => some offset
      | none => extractWasmOffsetGo rest
    | none => extractWasmOffsetGo rest

/-- Embeds `main.rs:extract_wasm_offset`. -/
def extract_wasm_offset (error_msg : String) : Option Nat :=
  extractWasmOffsetGo (error_msg.splitOn "\n")

/-! ## Serde-style JSON rendering

`main.rs` serializes a `StructuredError` and a `SourceLocation` to JSON
strings before embedding them in the response; the exact `serde_json`
output shape is reproduced. -/

/-- JSON string escaping for one character. -/
def jsonEscapeChar (c : Char) : String :=
  if c = Char.ofNat 34 then "\\\""
  else if c = Char.ofNat 92 then "\\\\"
  else if c = Char.ofNat 10 then "\\n"
  else if c = Char.ofNat 13 then "\\r"
  else if c = Char.ofNat 9 then "\\t"
  else String.singleton c

/-- JSON rendering of a string literal. -/
def jsonStr (s : String) : String :=
  "\"" ++ String.join (s.data.map jsonEscapeChar) ++ "\""

/-- JSON rendering of `serde_json::to_string(&StructuredError)`. -/
def structuredErrorJson (e : StructuredError) : String :=
  "\x7b\"error_type\":" ++ jsonStr e.error_type
    ++ ",\"message\":" ++ jsonStr e.message
    ++ ",\"details\":" ++ (match e.details with | some d => jsonStr d | none => "null")
    ++ "\x7d"

/-! ## Source mapper (`source_mapper.rs`)

DWARF parsing is abstracted: a WASM binary enters the model as the
outcome of `object`/`gimli` parsing (section presence flags and the line
cache that `build_line_cache` would produce).  The lookup logic of
`map_wasm_offset_to_source` is embedded in full. -/

/-- The simulator's `source_mapper::SourceLocation`. -/
structure SourceLocation where
  file : String
  line : Nat
  column : Option Nat
  column_end : Option Nat
  github_link : Option String
deriving DecidableEq

/-- JSON rendering of `serde_json::to_string(&SourceLocation)`
(`github_link` is skipped when `none`, per its serde attribute). -/
def sourceLocationJson (loc : SourceLocation) : String :=
  "\x7b\"file\":" ++ jsonStr loc.file
    ++ ",\"line\":" ++ toString loc.line
    ++ ",\"column\":" ++ (match loc.column with | some c => toString c | none => "null")
    ++ ",\"column_end\":" ++ (match loc.column_end with | some c => toString c | none => "null")
    ++ (match loc.github_link with | some l => ",\"github_link\":" ++ jsonStr l | none => "")
    ++ "\x7d"

/-- The simulator's `source_mapper::CachedLineEntry` (the source field
`end` is called `endOff` here because `end` is a Lean keyword). -/
structure CachedLineEntry where
  start : Nat
  endOff : Option Nat
  location : SourceLocation
deriving DecidableEq

/-- A detected git repository, reduced to the link generator consumed by
`map_wasm_offset_to_source` (`git_detector::GitRepository::generate_file_link`). -/
structure GitRepository where
  generate_file_link : String → Nat → Option String

/-- The simulator's `source_mapper::SourceMapper` state. -/
structure SourceMapper where
  has_symbols : Bool
  line_cache : List CachedLineEntry
  git_repo : Option GitRepository

/-- Outcome of `object`/`gimli` parsing on a WASM binary: whether the
object file parses, which debug sections are present, and the line cache
`build_line_cache` would return.  This is the abstraction boundary for
the DWARF binary format. -/
structure WasmDebugInfo where
  parseOk : Bool
  hasDebugInfo : Bool
  hasDebugLine : Bool
  buildResult : Except String (List CachedLineEntry)

/-- Embeds `source_mapper.rs:check_debug_symbols`: both `.debug_info` and
`.debug_line` must be present in a parseable object file. -/
def check_debug_symbols (w : WasmDebugInfo) : Bool :=
  w.parseOk && w.hasDebugInfo && w.hasDebugLine

/-- Embeds `source_mapper.rs:SourceMapper::new_with_options` (and so
`new`): the line cache is built only when debug symbols are present, and
a build failure degrades to an empty cache (`unwrap_or_default`). -/
def SourceMapper.new (w : WasmDebugInfo) (git_repo : Option GitRepository) : SourceMapper :=
  { has_symbols := check_debug_symbols w
    line_cache :=
      if check_debug_symbols w then
        match w.buildResult with
        | .ok cache => cache
        | .error _ => []
      else []
    git_repo := git_repo }

/-- Embeds `source_mapper.rs:dedupe_same_address_entries` (last writer
wins among entries with equal `start`). -/
def dedupe_same_address_entries : List CachedLineEntry → List CachedLineEntry
  | [] => []
  | entry :: rest =>
    match dedupe_same_address_entries rest with
    | [] => [entry]
    | e :: es => if entry.start = e.start then e :: es else entry :: e :: es

/-- Binary search of Rust `slice::binary_search_by_key` specialised to
`u64` keys: `Ok index` on an exact hit, `Err insertionPoint` otherwise
(the probe index is `left + (right - left) / 2`, as in the Rust
standard library). -/
def binarySearchGo (xs : List Nat) (key : Nat) (left right : Nat) : Except Nat Nat :=
  if left < right then
    if xs.getD (left + (right - left) / 2) 0 < key then
      binarySearchGo xs key (left + (right - left) / 2 + 1) right
    else if key < xs.getD (left + (right - left) / 2) 0 then
      binarySearchGo xs key left (left + (right - left) / 2)
    else .ok (left + (right - left) / 2)
  else .error left
termination_by right - left
decreasing_by all_goals omega

/-- Git-permalink enrichment at the end of
`map_wasm_offset_to_source` (the returned location's `github_link` is
regenerated when a repository was detected). -/
def applyGitLink (git_repo : Option GitRepository) (loc : SourceLocation) : SourceLocation :=
  match git_repo with
  | some repo => { loc with github_link := repo.generate_file_link loc.file loc.line }
  | none => loc

/-- Embeds `source_mapper.rs:map_wasm_offset_to_source`: binary search on
the cached starts, step back on a miss, reject offsets past a closed
interval end. -/
def SourceMapper.map_wasm_offset_to_source (m : SourceMapper) (wasm_offset : Nat) :
    Option SourceLocation :=
  if !m.has_symbols || m.line_cache.isEmpty then none
  else
    let starts := m.line_cache.map CachedLineEntry.start
    let idx? : Option Nat :=
      match binarySearchGo starts wasm_offset 0 starts.length with
      | .ok index => some index
      | .error 0 => none
      | .error index => some (index - 1)
    match idx? with
    | none => none
    | some idx =>
      match m.line_cache.get? idx with
      | none => none
      | some entry =>
        match entry.endOff with
        | some en =>
          if en ≤ wasm_offset then none
          else some (applyGitLink m.git_repo entry.location)
        | none => some (applyGitLink m.git_repo entry.location)

/-- Specification-side characterisation for C6: index `i` holds the cache
entry with the largest `start ≤ off` (indexing through the list of
starts, with an irrelevant default). -/
def IsLargestStartLE (cache : List CachedLineEntry) (off : Nat) (i : Nat) : Prop :=
  i < cache.length
    ∧ (cache.map CachedLineEntry.start).getD i 0 ≤ off
    ∧ ∀ j, j < cache.length → (cache.map CachedLineEntry.start).getD j 0 ≤ off → j ≤ i

/-! ## Coverage tracker and LCOV report (`main.rs`) -/

/-- The simulator's `CoverageTracker`; the `HashMap<String, u64>` is an
association list. -/
structure CoverageTracker where
  invoked_functions : List (String × Nat)
deriving DecidableEq

/-- Function label recorded for an `InvokeHostFunction` operation:
`InvokeContract::{:?}` of the function name, or the host function's
`name()`. -/
def functionLabel : HostFunction → String
  | .invokeContract args_function_name => "InvokeContract::" ++ args_function_name.fmt
  | .otherHostFunction other => other

/-- HashMap `entry(label).or_insert(0)` followed by
`*entry = entry.saturating_add(1)` on an association list. -/
def bumpLabel : List (String × Nat) → String → List (String × Nat)
  | [], label => [(label, satAdd 0 1)]
  | (k, v) :: rest, label =>
    if k = label then (k, satAdd v 1) :: rest
    else (k, v) :: bumpLabel rest label

/-- Embeds `CoverageTracker::record_operation`: only `InvokeHostFunction`
operations contribute. -/
def record_operation (cov : CoverageTracker) (op : Operation) : CoverageTracker :=
  match op.body with
  | .invokeHostFunction invoke_op => { invoked_functions := bumpLabel cov.invoked_functions (functionLabel invoke_op) }
  | .otherOperation _ => cov

/-- Lexicographic character-wise order used to model Rust's
`str::cmp` (computable comparison on the character lists). -/
def strLeChars : List Char → List Char → Bool
  | [], _ => true
  | _ :: _, [] => false
  | a :: as, b :: bs =>
    if a.toNat < b.toNat then true
    else if b.toNat < a.toNat then false
    else strLeChars as bs

/-- Insertion step of the name sort (`functions.sort_by` on the label). -/
def insertByName (p : String × Nat) : List (String × Nat) → List (String × Nat)
  | [] => [p]
  | q :: rest =>
    if strLeChars p.1.data q.1.data then p :: q :: rest else q :: insertByName p rest

/-- Models `Vec::sort_by(|(a, _), (b, _)| a.cmp(b))` as an insertion
sort (any sorting algorithm yields the same sorted list on distinct
HashMap keys). -/
def sortByName (l : List (String × Nat)) : List (String × Nat) :=
  l.foldr insertByName []

/-- Label sanitisation in `generate_lcov_report`
(`replace('\n', "_").replace(',', "_")`, written by code point). -/
def sanitizeLabel (name : String) : String :=
  String.mk (name.data.map fun c => if c = Char.ofNat 10 || c = Char.ofNat 44 then Char.ofNat 95 else c)

/-- Sorted function list of `generate_lcov_report`. -/
def lcovFunctions (coverage : CoverageTracker) : List (String × Nat) :=
  sortByName coverage.invoked_functions

/-- The `FNF` value of `generate_lcov_report` (number of listed
functions). -/
def lcovFnf (coverage : CoverageTracker) : Nat :=
  (lcovFunctions coverage).length

/-- The `FNH` value of `generate_lcov_report` (functions with a positive
invocation count). -/
def lcovFnh (coverage : CoverageTracker) : Nat :=
  ((lcovFunctions coverage).filter fun p => 0 < p.2).length

/-- Embeds `main.rs:generate_lcov_report`. -/
def generate_lcov_report (coverage : CoverageTracker) (source_file : String) : String :=
  let functions := lcovFunctions coverage
  let header := "TN:simulator\n" ++ "SF:" ++ source_file ++ "\n"
  let fnSection := String.join ((functions.enum).map fun ip =>
    "FN:" ++ toString (ip.1 + 1) ++ "," ++ sanitizeLabel ip.2.1 ++ "\n")
  let fndaSection := String.join (functions.map fun p =>
    "FNDA:" ++ toString p.2 ++ "," ++ sanitizeLabel p.1 ++ "\n")
  header ++ fnSection ++ fndaSection
    ++ "FNF:" ++ toString (lcovFnf coverage) ++ "\n"
    ++ "FNH:" ++ toString (lcovFnh coverage) ++ "\n"
    ++ "DA:1,1\n" ++ "LF:1\n" ++ "LH:1\n" ++ "end_of_record\n"

/-! ## Memory-limit enforcement and operation dispatch (`main.rs`) -/

/-- The memory-limit panic marker (`main.rs`). -/
def ERR_MEMORY_LIMIT_EXCEEDED : String := "ERR_MEMORY_LIMIT_EXCEEDED"

/-- Panic message of `check_memory_limit_or_panic`
(`panic!("{}: consumed {} bytes, limit {} bytes", ..)`). -/
def memoryLimitPanicMessage (mem_bytes limit : Nat) : String :=
  ERR_MEMORY_LIMIT_EXCEEDED
    ++ (": consumed " ++ toString mem_bytes ++ " bytes, limit " ++ toString limit ++ " bytes")

/-- Embeds `main.rs:check_memory_limit_or_panic`: `some message` is the
panic, `none` is normal return. -/
def check_memory_limit_or_panic (mem_bytes : Nat) (memory_limit : Option Nat) : Option String :=
  match memory_limit with
  | some limit =>
    if limit < mem_bytes then some (memoryLimitPanicMessage mem_bytes limit) else none
  | none => none

/-- Behaviour of one `host.invoke_function` call: the host's result (a
rendered value or a `HostError` debug string) together with the budget's
consumed memory bytes after the call. -/
structure HostStep where
  result : Except String Dbg
  memAfter : Nat

/-- Abstract host behaviour during dispatch: the initial consumed memory
and, for each successive invocation, its `HostStep`. -/
structure HostModel where
  memInitial : Nat
  step : Nat → HostStep

/-- Outcome of the dispatcher inside the unwind-catching boundary of
`main.rs`: `Ok(Ok(logs))`, `Ok(Err(host_error))` (as its `format!("{:?}")`
rendering), or a caught panic payload. -/
inductive DispatchOutcome
  | okOk (exec_logs : List String)
  | okErr (error_debug : String)
  | panicked (panic_msg : String)
deriving DecidableEq

/-- Loop of `main.rs:execute_operations`: per operation record coverage,
dispatch `InvokeHostFunction` through the host (checking the memory
ceiling after), log and skip other operations (checking the ceiling as
well). -/
def executeOperationsGo (host : HostModel) (memory_limit : Option Nat) :
    List Operation → Nat → Nat → CoverageTracker → List String →
    DispatchOutcome × CoverageTracker
  | [], _, _, cov, logs => (.okOk logs, cov)
  | op :: rest, k, mem, cov, logs =>
    let cov := record_operation cov op
    match op.body with
    | .invokeHostFunction _ =>
      let logs := logs ++ ["Executing InvokeHostFunction..."]
      let step := host.step k
      match step.result with
      | .error host_error => (.okErr host_error, cov)
      | .ok val =>
        let logs := logs ++ ["Result: " ++ val.fmt]
        match check_memory_limit_or_panic step.memAfter memory_limit with
        | some msg => (.panicked msg, cov)
        | none => executeOperationsGo host memory_limit rest (k + 1) step.memAfter cov logs
    | .otherOperation name =>
      let logs := logs ++ ["Skipping non-Soroban operation: " ++ jsonStr name]
      match check_memory_limit_or_panic mem memory_limit with
      | some msg => (.panicked msg, cov)
      | none => executeOperationsGo host memory_limit rest k mem cov logs

/-- Embeds `main.rs:execute_operations` wrapped in the
`std::panic::catch_unwind` boundary of `main` (a triggered memory-limit
panic becomes a `panicked` outcome; the coverage tracker keeps the
mutations made before the panic). -/
def execute_operations (host : HostModel) (operations : List Operation)
    (memory_limit : Option Nat) (cov : CoverageTracker) :
    DispatchOutcome × CoverageTracker :=
  match check_memory_limit_or_panic host.memInitial memory_limit with
  | some msg => (.panicked msg, cov)
  | none => executeOperationsGo host memory_limit operations 0 host.memInitial cov []

/-! ## Mocked fee check (`main.rs`) -/

/-- Embeds `main.rs:mocked_required_fee_stroops` with `u64` saturating
arithmetic. -/
def mocked_required_fee_stroops (request : SimulationRequest)
    (operations_count cpu_insns mem_bytes : Nat) : Option Nat :=
  let required_fee := 0
  let enabled := false
  let (required_fee, enabled) :=
    match request.mock_base_fee with
    | some base_fee => (satAdd required_fee (satMul base_fee operations_count), true)
    | none => (required_fee, enabled)
  let (required_fee, enabled) :=
    match request.mock_gas_price with
    | some gas_price =>
      let cpu_units := satAdd cpu_insns 9999 / 10000
      let mem_units := satAdd mem_bytes 1023 / 1024
      let resource_units := max (satAdd cpu_units mem_units) 1
      (satAdd required_fee (satMul gas_price resource_units), true)
    | none => (required_fee, enabled)
  if enabled then some required_fee else none

/-- Specification-side fee formula of C4 (`required = base_fee × ops +
gas_price × max(1, ceil(cpu/10000) + ceil(mem/1024))`, an unset field
contributing nothing; `Nat` ceiling division). -/
def specRequiredFee (request : SimulationRequest) (operations_count cpu_insns mem_bytes : Nat) : Nat :=
  (match request.mock_base_fee with
   | some base_fee => base_fee * operations_count
   | none => 0)
  + (match request.mock_gas_price with
     | some gas_price => gas_price * max 1 ((cpu_insns + 9999) / 10000 + (mem_bytes + 1023) / 1024)
     | none => 0)

/-- Error message of the mocked fee check
(`format!("insufficient fee (mocked): declared {} stroops, required {} stroops", ..)`). -/
def insufficientFeeMsg (declared required : Nat) : String :=
  "insufficient fee (mocked)"
    ++ (": declared " ++ toString declared ++ " stroops, required " ++ toString required ++ " stroops")

/-! ## Response construction (`main.rs`) -/

/-- Modelled from the spec: the protocol CPU budget ceiling `CPU_LIMIT`
re-exported by `gas_optimizer`; its definition is not among the sources
under verification (the gas optimizer's percentage math uses a
100,000,000-instruction CPU budget). -/
def CPU_LIMIT : Nat := 100000000

/-- Modelled from the spec: the protocol memory budget ceiling
`MEMORY_LIMIT` re-exported by `gas_optimizer`; its definition is not
among the sources under verification (the gas optimizer's percentage
math uses a 50,000,000-byte memory budget). -/
def MEMORY_LIMIT : Nat := 50000000

/-- The simulator's `types::SimulationResponse`. -/
structure SimulationResponse where
  status : String
  error : Option String
  error_code : Option String
  lcov_report : Option String
  lcov_report_path : Option String
  events : List String
  diagnostic_events : List DiagnosticEvent
  categorized_events : List CategorizedEvent
  logs : List String
  flamegraph : Option String
  optimization_report : Option OptimizationReport
  budget_usage : Option BudgetUsage
  source_location : Option String
  stack_trace : Option WasmStackTrace
  wasm_offset : Option Nat
deriving DecidableEq

/-- State of `main` at the `match result` over the dispatch outcome: the
request, the decoded envelope, the result of `host.get_events()`, the
budget counters and their `Debug` rendering, the loaded-entry count, and
the already-computed optional artefacts (LCOV, flamegraph, optimization
report, source mapper). -/
structure ReportContext where
  request : SimulationRequest
  envelope : TransactionEnvelope
  hostEvents : Except Unit (List HostEvent)
  budgetDbg : String
  cpu_insns : Nat
  mem_bytes : Nat
  loaded_entries_count : Nat
  lcov_report : Option String
  lcov_report_path : Option String
  flamegraph_svg : Option String
  optimization_report : Option OptimizationReport
  source_mapper : Option SourceMapper

/-- The `budget_usage` record built by `main` (integer fields; the two
`f64` percentages are not modelled). -/
def budgetUsageOf (ctx : ReportContext) : BudgetUsage :=
  { cpu_instructions := ctx.cpu_insns
    memory_bytes := ctx.mem_bytes
    operations_count := (envelopeOperations ctx.envelope).length
    cpu_limit := CPU_LIMIT
    memory_limit := MEMORY_LIMIT }

/-- Embeds the three-armed `match result` at the end of `main`
(`main.rs` lines 577-822): the success path with its mocked fee check,
the host-error path, and the caught-panic path. -/
def respondToOutcome (ctx : ReportContext) : DispatchOutcome → SimulationResponse
  | .okOk exec_logs =>
    let (events, diagnostic_events) :=
      match ctx.hostEvents with
      | .ok evs => (evs.map hostEventDbg, diagnosticEventsOf evs)
      | .error _ => (["Failed to retrieve events"], [])
    let categorized_events :=
      match ctx.hostEvents with
      | .ok evs => categorize_events evs
      | .error _ => []
    let final_logs :=
      ["Host Initialized with Budget: " ++ ctx.budgetDbg,
       "Loaded " ++ toString ctx.loaded_entries_count ++ " Ledger Entries",
       "Captured " ++ toString diagnostic_events.length ++ " diagnostic events",
       "CPU Instructions Used: " ++ toString ctx.cpu_insns,
       "Memory Bytes Used: " ++ toString ctx.mem_bytes]
      ++ exec_logs
    let operations_count := (envelopeOperations ctx.envelope).length
    match mocked_required_fee_stroops ctx.request operations_count ctx.cpu_insns ctx.mem_bytes with
    | some required_fee =>
      let declared_fee := transaction_fee_stroops ctx.envelope
      let final_logs := final_logs
        ++ ["Mock fee check: declared=" ++ toString declared_fee
              ++ " required=" ++ toString required_fee]
      if declared_fee < required_fee then
        { status := "error"
          error := some (insufficientFeeMsg declared_fee required_fee)
          error_code := none
          lcov_report := ctx.lcov_report
          lcov_report_path := ctx.lcov_report_path
          events := events
          diagnostic_events := diagnostic_events
          categorized_events := categorized_events
          logs := final_logs
          flamegraph := ctx.flamegraph_svg
          optimization_report := ctx.optimization_report
          budget_usage := some (budgetUsageOf ctx)
          source_location := none
          stack_trace := none
          wasm_offset := none }
      else
        { status := "success"
          error := none
          error_code := none
          lcov_report := ctx.lcov_report
          lcov_report_path := ctx.lcov_report_path
          events := events
          diagnostic_events := diagnostic_events
          categorized_events := categorized_events
          logs := final_logs
          flamegraph := ctx.flamegraph_svg
          optimization_report := ctx.optimization_report
          budget_usage := some (budgetUsageOf ctx)
          source_location :=
            (ctx.source_mapper.bind fun m => m.map_wasm_offset_to_source 0).map sourceLocationJson
          stack_trace := none
          wasm_offset := none }
    | none =>
      { status := "success"
        error := none
        error_code := none
        lcov_report := ctx.lcov_report
        lcov_report_path := ctx.lcov_report_path
        events := events
        diagnostic_events := diagnostic_events
        categorized_events := categorized_events
        logs := final_logs
        flamegraph := ctx.flamegraph_svg
        optimization_report := ctx.optimization_report
        budget_usage := some (budgetUsageOf ctx)
        source_location :=
          (ctx.source_mapper.bind fun m => m.map_wasm_offset_to_source 0).map sourceLocationJson
        stack_trace := none
        wasm_offset := none }
  | .okErr error_debug =>
    let decoded_msg := decode_error error_debug
    let wasm_trace := WasmStackTrace.from_host_error error_debug
    let trace_display := wasm_trace.display
    let structured_error : StructuredError :=
      { error_type := "HostError"
        message := decoded_msg
        details := some ("Contract execution failed with host error: " ++ decoded_msg) }
    let wasm_offset := extract_wasm_offset error_debug
    let source_location :=
      match wasm_offset, ctx.source_mapper with
      | some offset, some mapper =>
        (mapper.map_wasm_offset_to_source offset).map sourceLocationJson
      | _, _ => none
    { status := "error"
      error := some (structuredErrorJson structured_error)
      error_code := none
      lcov_report := ctx.lcov_report
      lcov_report_path := ctx.lcov_report_path
      events := []
      diagnostic_events := []
      categorized_events := []
      logs := ["Stack trace:\n" ++ trace_display]
      flamegraph := none
      optimization_report := none
      budget_usage := none
      source_location := source_location
      stack_trace := some wasm_trace
      wasm_offset := wasm_offset }
  | .panicked panic_msg =>
    let wasm_trace := WasmStackTrace.from_panic panic_msg
    let memory_limit_exceeded := strContains panic_msg ERR_MEMORY_LIMIT_EXCEEDED
    { status := "error"
      error := some (if memory_limit_exceeded then panic_msg
                     else "Simulator panicked: " ++ panic_msg)
      error_code := if memory_limit_exceeded then some ERR_MEMORY_LIMIT_EXCEEDED else none
      lcov_report := ctx.lcov_report
      lcov_report_path := ctx.lcov_report_path
      events := []
      diagnostic_events := []
      categorized_events := []
      logs := ["PANIC: " ++ panic_msg]
      flamegraph := none
      optimization_report := none
      budget_usage := none
      source_location := none
      stack_trace := some wasm_trace
      wasm_offset := none }

/-! ## Request deserialization and the pipeline prelude (`main.rs`)

Serde deserialization of `types::SimulationRequest` is embedded at the
field level: a JSON object is the tuple of its recognised fields (each
`none` when absent; unknown fields are ignored by serde and so absent
from the model).  Per serde's derive rules, a field of type `Option<T>`
defaults to `None` and a `#[serde(default)]` field to its default, while
every other field is required. -/

/-- A request JSON object, field-presence-wise. -/
structure RequestJson where
  envelope_xdr : Option String
  result_meta_xdr : Option String
  ledger_entries : Option (List (String × String))
  contract_wasm : Option String
  wasm_path : Option String
  enable_optimization_advisor : Option Bool
  profile : Option Bool
  timestamp : Option String
  mock_base_fee : Option Nat
  mock_gas_price : Option Nat
  enable_coverage : Option Bool
  coverage_lcov_path : Option String
  resource_calibration : Option ResourceCalibration
  memory_limit : Option Nat
  restore_preamble : Option JsonValue
deriving DecidableEq

/-- Serde's error text for a missing required field. -/
def missingFieldMsg (field : String) : String :=
  "missing field `" ++ field ++ "`"

/-- Serde deserialization of `SimulationRequest`: the non-`Option`
fields without `#[serde(default)]` (`envelope_xdr`, `result_meta_xdr`,
`enable_optimization_advisor`, `timestamp`) are required; `Option`
fields default to `None`; `enable_coverage` has `#[serde(default)]` and
defaults to `false`. -/
def parseRequest (j : RequestJson) : Except String SimulationRequest :=
  match j.envelope_xdr with
  | none => .error (missingFieldMsg "envelope_xdr")
  | some envelope_xdr =>
    match j.result_meta_xdr with
    | none => .error (missingFieldMsg "result_meta_xdr")
    | some result_meta_xdr =>
      match j.enable_optimization_advisor with
      | none => .error (missingFieldMsg "enable_optimization_advisor")
      | some enable_optimization_advisor =>
        match j.timestamp with
        | none => .error (missingFieldMsg "timestamp")
        | some timestamp =>
          .ok { envelope_xdr := envelope_xdr
                result_meta_xdr := result_meta_xdr
                ledger_entries := j.ledger_entries
                contract_wasm := j.contract_wasm
                wasm_path := j.wasm_path
                enable_optimization_advisor := enable_optimization_advisor
                profile := j.profile
                timestamp := timestamp
                mock_base_fee := j.mock_base_fee
                mock_gas_price := j.mock_gas_price
                enable_coverage := j.enable_coverage.getD false
                coverage_lcov_path := j.coverage_lcov_path
                resource_calibration := j.resource_calibration
                memory_limit := j.memory_limit
                restore_preamble := j.restore_preamble }

/-- The `Invalid JSON` response printed by `main` when request
deserialization fails (exit code 0). -/
def invalidJsonResponse (e : String) : SimulationResponse :=
  { status := "error"
    error := some ("Invalid JSON: " ++ e)
    error_code := none
    lcov_report := none
    lcov_report_path := none
    events := []
    diagnostic_events := []
    categorized_events := []
    logs := []
    flamegraph := none
    optimization_report := none
    budget_usage := none
    source_location := none
    stack_trace := none
    wasm_offset := none }

/-- Embeds `main.rs:send_error` (the emitted response; the process then
exits with status 1). -/
def sendErrorResponse (msg : String) : SimulationResponse :=
  { status := "error"
    error := some msg
    error_code := none
    lcov_report := none
    lcov_report_path := none
    events := []
    diagnostic_events := []
    categorized_events := []
    logs := []
    flamegraph := none
    optimization_report := none
    budget_usage := none
    source_location := none
    stack_trace := some (WasmStackTrace.from_host_error msg)
    wasm_offset := none }

/-- Opaque decoded `xdr::TransactionResultMeta`. -/
structure TransactionResultMeta where
  rendered : String
deriving DecidableEq

/-- External decoders consumed by the prelude: base64 decoding and the
XDR parsers for the envelope and the result metadata (abstracted binary
formats). -/
structure PreludeDecoders where
  base64Decode : String → Except String (List Nat)
  parseEnvelope : List Nat → Except String TransactionEnvelope
  parseResultMeta : List Nat → Except String TransactionResultMeta

/-- Embeds the best-effort result-metadata decoding of `main`
(`main.rs` lines 365-398): every failure path degrades to `none` with a
stderr warning, never an abort. -/
def decodeResultMeta (d : PreludeDecoders) (result_meta_xdr : String) :
    Option TransactionResultMeta × List String :=
  if result_meta_xdr.isEmpty then
    (none, ["Warning: ResultMetaXdr is empty. Host storage may be incomplete."])
  else
    match d.base64Decode result_meta_xdr with
    | .ok bytes =>
      if bytes.isEmpty then (none, ["Warning: ResultMetaXdr decoded to 0 bytes."])
      else
        match d.parseResultMeta bytes with
        | .ok meta => (some meta, [])
        | .error e =>
          (none, ["Warning: Failed to parse ResultMeta XDR: " ++ e
                    ++ ". Proceeding with empty storage."])
    | .error e =>
      (none, ["Warning: Failed to decode ResultMeta Base64: " ++ e
                ++ ". Proceeding with empty storage."])

/-- Result of the pipeline prelude of `main` (request parse, envelope
decode, result-metadata decode): an `Invalid JSON` response (printed,
exit 0), a `send_error` response (printed, exit 1), or the decoded state
with which the pipeline proceeds. -/
inductive PreludeResult
  | invalidRequest (response : SimulationResponse)
  | fatal (response : SimulationResponse)
  | proceeding (request : SimulationRequest) (envelope : TransactionEnvelope)
      (result_meta : Option TransactionResultMeta) (meta_warnings : List String)

/-- Embeds the prelude of `main` in source order: serde request parse
(abort on failure), envelope base64+XDR decode (`send_error` on
failure), then best-effort result-metadata decode (never aborts). -/
def mainPrelude (d : PreludeDecoders) (j : RequestJson) : PreludeResult :=
  match parseRequest j with
  | .error e => .invalidRequest (invalidJsonResponse e)
  | .ok request =>
    match d.base64Decode request.envelope_xdr with
    | .error e => .fatal (sendErrorResponse ("Failed to decode Envelope Base64: " ++ e))
    | .ok bytes =>
      match d.parseEnvelope bytes with
      | .error e => .fatal (sendErrorResponse ("Failed to parse Envelope XDR: " ++ e))
      | .ok envelope =>
        let (result_meta, meta_warnings) := decodeResultMeta d request.result_meta_xdr
        .proceeding request envelope result_meta meta_warnings

/-! ## Local WASM loading (`wasm.rs`) -/

/-- The simulator's `wasm::WasmLoadError`. -/
inductive WasmLoadError
  | io (msg : String)
  | invalidMagic
  | tooLarge (size limit : Nat)
deriving DecidableEq

/-- The four magic bytes `\0asm` (`wasm.rs:WASM_MAGIC`). -/
def WASM_MAGIC : List Nat := [0x00, 0x61, 0x73, 0x6d]

/-- The 64 KiB Soroban size cap (`wasm.rs:MAX_WASM_SIZE`). -/
def MAX_WASM_SIZE : Nat := 64 * 1024

/-- Embeds `wasm.rs:load_wasm_from_path` over the file's byte contents
(`none` models an unreadable path).  The source reads the first four
bytes (`read_exact`, an I/O error on a shorter file), checks the magic,
then reads the rest and applies the size cap to the whole. -/
def load_wasm_from_path (file : Option (List Nat)) : Except WasmLoadError (List Nat) :=
  match file with
  | none => .error (.io "No such file or directory (os error 2)")
  | some contents =>
    if contents.length < 4 then .error (.io "failed to fill whole buffer")
    else
      let magic := contents.take 4
      if magic ≠ WASM_MAGIC then .error .invalidMagic
      else
        let bytes := contents
        if MAX_WASM_SIZE < bytes.length then
          .error (.tooLarge bytes.length MAX_WASM_SIZE)
        else .ok bytes

/-! ## Ledger snapshot (`snapshot/mod.rs`)

The XDR codec for `LedgerKey` / `LedgerEntry` is abstracted as explicit
decoder functions; re-encoding a decoded key (`to_xdr` under
`Limits::none()`, which cannot fail on an already-decoded key) is a
total function. -/

/-- Opaque decoded `xdr::LedgerKey`. -/
structure LedgerKey where
  rendered : String
deriving DecidableEq

/-- Opaque decoded `xdr::LedgerEntry`. -/
structure LedgerEntry where
  rendered : String
deriving DecidableEq

/-- The snapshot module's error type (`snapshot::SnapshotError`). -/
inductive SnapshotError
  | base64Decode (msg : String)
  | xdrParse (msg : String)
  | xdrEncoding (msg : String)
  | storageError (msg : String)
deriving DecidableEq

/-- Abstract XDR/base64 codec used by the snapshot module. -/
structure XdrCodec where
  base64Decode : String → Except String (List Nat)
  parseKey : List Nat → Except String LedgerKey
  parseEntry : List Nat → Except String LedgerEntry
  encodeKey : LedgerKey → List Nat

/-- Embeds `snapshot::decode_ledger_key`: an empty input string and an
empty decoded payload are base64-decode errors; base64 and XDR failures
are tagged distinctly. -/
def decode_ledger_key (c : XdrCodec) (key_xdr : String) : Except SnapshotError LedgerKey :=
  if key_xdr.isEmpty then .error (.base64Decode "LedgerKey: empty payload")
  else
    match c.base64Decode key_xdr with
    | .error e => .error (.base64Decode ("LedgerKey: " ++ e))
    | .ok bytes =>
      if bytes.isEmpty then .error (.base64Decode "LedgerKey: decoded payload is empty")
      else
        match c.parseKey bytes with
        | .error e => .error (.xdrParse ("LedgerKey: " ++ e))
        | .ok key => .ok key

/-- Embeds `snapshot::decode_ledger_entry`. -/
def decode_ledger_entry (c : XdrCodec) (entry_xdr : String) : Except SnapshotError LedgerEntry :=
  if entry_xdr.isEmpty then .error (.base64Decode "LedgerEntry: empty payload")
  else
    match c.base64Decode entry_xdr with
    | .error e => .error (.base64Decode ("LedgerEntry: " ++ e))
    | .ok bytes =>
      if bytes.isEmpty then .error (.base64Decode "LedgerEntry: decoded payload is empty")
      else
        match c.parseEntry bytes with
        | .error e => .error (.xdrParse ("LedgerEntry: " ++ e))
        | .ok entry => .ok entry

/-- The simulator's `snapshot::LedgerSnapshot` (the
`HashMap<Vec<u8>, LedgerEntry>` is an association list on the re-encoded
key bytes). -/
structure LedgerSnapshot where
  entries : List (List Nat × LedgerEntry)
deriving DecidableEq

/-- HashMap insert on the association list (replace or append). -/
def insertEntry : List (List Nat × LedgerEntry) → List Nat → LedgerEntry →
    List (List Nat × LedgerEntry)
  | [], key, entry => [(key, entry)]
  | (k, v) :: rest, key, entry =>
    if k = key then (k, entry) :: rest else (k, v) :: insertEntry rest key entry

/-- Loop of `LedgerSnapshot::from_base64_map`: decode each pair, then
key the decoded entry by the re-encoded XDR of the decoded key. -/
def fromBase64MapGo (c : XdrCodec) (acc : List (List Nat × LedgerEntry)) :
    List (String × String) → Except SnapshotError (List (List Nat × LedgerEntry))
  | [] => .ok acc
  | (key_xdr, entry_xdr) :: rest =>
    match decode_ledger_key c key_xdr with
    | .error e => .error e
    | .ok key =>
      match decode_ledger_entry c entry_xdr with
      | .error e => .error e
      | .ok entry =>
        let key_bytes := c.encodeKey key
        fromBase64MapGo c (insertEntry acc key_bytes entry) rest

/-- Embeds `snapshot::LedgerSnapshot::from_base64_map` over the map's
pair list. -/
def LedgerSnapshot.from_base64_map (c : XdrCodec) (entries : List (String × String)) :
    Except SnapshotError LedgerSnapshot :=
  match fromBase64MapGo c [] entries with
  | .error e => .error e
  | .ok decoded => .ok { entries := decoded }

/-! ## Concrete sample values used by witnesses and counterexamples -/

/-- A host event whose emitting call failed. -/
def sampleHostEvent : HostEvent :=
  { failed_call := true
    event := { contract_id := none, type_ := .diagnostic, topics := [], data := ⟨"Void"⟩ } }

/-- A minimal simulation request (no optional features). -/
def sampleRequest : SimulationRequest :=
  { envelope_xdr := "AAAA"
    result_meta_xdr := ""
    ledger_entries := none
    contract_wasm := none
    wasm_path := none
    enable_optimization_advisor := false
    profile := none
    timestamp := "2025-01-01T00:00:00Z"
    mock_base_fee := none
    mock_gas_price := none
    enable_coverage := false
    coverage_lcov_path := none
    resource_calibration := none
    memory_limit := none
    restore_preamble := none }

/-- A v1 envelope with declared fee 100 and no operations. -/
def sampleEnvelope : TransactionEnvelope := .tx 100 []

/-- A report context holding one collected host event. -/
def sampleCtx : ReportContext :=
  { request := sampleRequest
    envelope := sampleEnvelope
    hostEvents := .ok [sampleHostEvent]
    budgetDbg := "Budget"
    cpu_insns := 0
    mem_bytes := 0
    loaded_entries_count := 0
    lcov_report := none
    lcov_report_path := none
    flamegraph_svg := none
    optimization_report := none
    source_mapper := none }

/-- A request with `mock_base_fee = 100` (C4's end-to-end scenario). -/
def feeRequest : SimulationRequest :=
  { sampleRequest with mock_base_fee := some 100 }

/-- A v1 envelope with declared fee 100 and three operations. -/
def feeEnvelope : TransactionEnvelope :=
  .tx 100 [⟨.invokeHostFunction (.invokeContract ⟨"transfer"⟩)⟩,
           ⟨.invokeHostFunction (.invokeContract ⟨"init"⟩)⟩,
           ⟨.otherOperation "Payment"⟩]

/-- Report context for the mocked fee scenario. -/
def feeCtx : ReportContext :=
  { sampleCtx with request := feeRequest, envelope := feeEnvelope }

/-- Prelude decoders that accept everything (sample). -/
def trivialDecoders : PreludeDecoders :=
  { base64Decode := fun _ => .ok [0]
    parseEnvelope := fun _ => .ok (.tx 0 [])
    parseResultMeta := fun _ => .ok ⟨"meta"⟩ }

/-- Prelude decoders whose base64 decoder only accepts `"AAAA"` (so a
present-but-undecodable `result_meta_xdr` exercises the warning path). -/
def pickyDecoders : PreludeDecoders :=
  { base64Decode := fun s => if s = "AAAA" then .ok [0] else .error "Invalid symbol 33, offset 0."
    parseEnvelope := fun _ => .ok (.tx 0 [])
    parseResultMeta := fun _ => .ok ⟨"meta"⟩ }

/-- A request JSON that is complete except for `result_meta_xdr`. -/
def requestJsonNoMeta : RequestJson :=
  { envelope_xdr := some "AAAA"
    result_meta_xdr := none
    ledger_entries := none
    contract_wasm := none
    wasm_path := none
    enable_optimization_advisor := some false
    profile := none
    timestamp := some "2025-01-01T00:00:00Z"
    mock_base_fee := none
    mock_gas_price := none
    enable_coverage := none
    coverage_lcov_path := none
    resource_calibration := none
    memory_limit := none
    restore_preamble := none }

/-- The same request JSON with a (corrupt) `result_meta_xdr` present. -/
def requestJsonBadMeta : RequestJson :=
  { requestJsonNoMeta with result_meta_xdr := some "!corrupt!" }

/-- The parsed form of `requestJsonBadMeta`. -/
def badMetaRequest : SimulationRequest :=
  { sampleRequest with result_meta_xdr := "!corrupt!" }

/-- Line-cache entry `[0x10, 0x20)` used by the C6 witness. -/
def entryA : CachedLineEntry :=
  { start := 0x10
    endOff := some 0x20
    location := { file := "lib.rs", line := 10, column := some 1, column_end := none, github_link := none } }

/-- Unbounded line-cache entry starting at `0x20` used by the C6 witness. -/
def entryB : CachedLineEntry :=
  { start := 0x20
    endOff := none
    location := { file := "lib.rs", line := 20, column := some 2, column_end := none, github_link := none } }

/-- A source mapper with symbols and a two-entry cache. -/
def sampleMapper : SourceMapper :=
  { has_symbols := true, line_cache := [entryA, entryB], git_repo := none }

/-- Parse outcome of a WASM binary carrying `.debug_line` but no
`.debug_info`. -/
def debugInfoMissing : WasmDebugInfo :=
  { parseOk := true, hasDebugInfo := false, hasDebugLine := true, buildResult := .ok [entryA] }

/-- A file of exactly 64 KiB beginning with the WASM magic. -/
def wasmOkBytes : List Nat := WASM_MAGIC ++ List.replicate 65532 0

/-- A file of 64 KiB + 1 byte beginning with the WASM magic. -/
def wasmBigBytes : List Nat := WASM_MAGIC ++ List.replicate 65533 0

/-- A five-byte file that does not begin with the WASM magic. -/
def wasmBadBytes : List Nat := [1, 2, 3, 4, 5]

/-- A sample XDR codec for the C9 witness: base64 accepts only `"k"`,
both XDR parsers accept any non-empty payload. -/
def sampleCodec : XdrCodec :=
  { base64Decode := fun s => if s = "k" then .ok [1] else .error "Invalid symbol"
    parseKey := fun _ => .ok ⟨"key"⟩
    parseEntry := fun _ => .ok ⟨"entry"⟩
    encodeKey := fun _ => [9] }

/-! ## Helper lemmas on the string model -/

theorem listIsPre_self_append (p r : List Char) : listIsPre p (p ++ r) = true := by
  induction p with
  | nil => rfl
  | cons a as ih => simp [listIsPre, ih]

theorem listIsPre_append_right (p l r : List Char) (h : listIsPre p l = true) :
    listIsPre p (l ++ r) = true := by
  induction p generalizing l with
  | nil => rfl
  | cons a as ih =>
    cases l with
    | nil => simp [listIsPre] at h
    | cons b bs =>
      simp only [listIsPre, Bool.and_eq_true, beq_iff_eq] at h
      simp [listIsPre, h.1, ih bs h.2]

theorem strStartsWith_self_append (p r : String) : strStartsWith (p ++ r) p = true := by
  simp only [strStartsWith, String.data_append]
  exact listIsPre_self_append p.data r.data

theorem strStartsWith_append_right (a b p : String) (h : strStartsWith a p = true) :
    strStartsWith (a ++ b) p = true := by
  simp only [strStartsWith, String.data_append]
  exact listIsPre_append_right p.data a.data b.data h

theorem strContainsCore_of_isPre (l p : List Char) (h : listIsPre p l = true) :
    strContainsCore l p = true := by
  cases l with
  | nil =>
    cases p with
    | nil => rfl
    | cons b bs => simp [listIsPre] at h
  | cons a t => simp [strContainsCore, h]

theorem strContainsCore_append_right (l r p : List Char) (h : strContainsCore r p = true) :
    strContainsCore (l ++ r) p = true := by
  induction l with
  | nil => simpa using h
  | cons a t ih => simp [strContainsCore, ih]

theorem strContains_self_append (p r : String) : strContains (p ++ r) p = true := by
  simp only [strContains, String.data_append]
  exact strContainsCore_of_isPre _ _ (listIsPre_self_append p.data r.data)

theorem strContains_append_right (a b p : String) (h : strContains b p = true) :
    strContains (a ++ b) p = true := by
  simp only [strContains, String.data_append] at *
  exact strContainsCore_append_right a.data b.data p.data h

theorem strContains_of_startsWith (s p : String) (h : strStartsWith s p = true) :
    strContains s p = true :=
  strContainsCore_of_isPre s.data p.data h

/-! ## Helper lemmas on saturating arithmetic -/

theorem satAdd_of_le (a b : Nat) (h : a + b ≤ U64MAX) : satAdd a b = a + b := by
  simp [satAdd, Nat.min_eq_left h]

theorem satMul_of_le (a b : Nat) (h : a * b ≤ U64MAX) : satMul a b = a * b := by
  simp [satMul, Nat.min_eq_left h]

/-! ## C2: `in_successful_contract_call` is the negation of `failed_call` -/

/-- C2: for every host event processed into a `DiagnosticEvent` — on the
success path (`diagnosticEventsOf`) and via `categorize_events` — the
emitted `in_successful_contract_call` equals the negation of the host
event's `failed_call` flag. -/
theorem C2_in_successful_contract_call_negates_failed_call (events : List HostEvent) :
    ((categorize_events events).map fun c => c.event.in_successful_contract_call)
        = events.map (fun e => !e.failed_call)
    ∧ ((diagnosticEventsOf events).map fun d => d.in_successful_contract_call)
        = events.map (fun e => !e.failed_call) := by
  constructor <;>
    simp [categorize_events, diagnosticEventsOf, diagnosticEventOf]

/-! ## C3: what the WASM validator actually rejects -/

theorem scanOps_isOk (ops : List Operator) :
    (scanOps ops).isOk = !ops.any is_float_op := by
  induction ops with
  | nil => rfl
  | cons op rest ih =>
    by_cases h : is_float_op op
    · simp [scanOps, h, List.any_cons, Except.isOk, Except.toBool]
    · simp only [Bool.not_eq_true] at h
      simp [scanOps, h, List.any_cons, ih]

theorem isVmListedFloatOp_eq_is_float_op : isVmListedFloatOp = is_float_op :=
  funext fun op => by cases op <;> rfl

set_option maxHeartbeats 1600000 in
theorem is_float_op_imp_isFloatOperator (op : Operator)
    (h : is_float_op op = true) : isFloatOperator op = true := by
  cases op <;> first | rfl | simp [is_float_op] at h

theorem enforce_isOk_eq_any (m : List Payload) :
    (enforce_soroban_compatibility m).isOk
      = !(m.any fun p =>
          match p with
          | .codeSectionEntry ops => ops.any is_float_op
          | .otherSection => false) := by
  induction m with
  | nil => rfl
  | cons p rest ih =>
    cases p with
    | otherSection => simpa [enforce_soroban_compatibility] using ih
    | codeSectionEntry ops =>
      have hscan := scanOps_isOk ops
      cases hs : scanOps ops with
      | error e =>
        rw [hs] at hscan
        simp only [Except.isOk, Except.toBool] at hscan
        simp [enforce_soroban_compatibility, hs, ← hscan, Except.isOk, Except.toBool]
      | ok u =>
        rw [hs] at hscan
        simp only [Except.isOk, Except.toBool] at hscan
        cases u
        simp only [enforce_soroban_compatibility, hs]
        simp [← hscan] at ih ⊢
        simpa using ih

theorem moduleListed_imp_moduleFloat (m : List Payload)
    (h : moduleHasListedFloatOp m = true) : moduleHasFloatOperator m = true := by
  unfold moduleHasListedFloatOp at h
  unfold moduleHasFloatOperator
  rw [List.any_eq_true] at h ⊢
  obtain ⟨p, hp, hop⟩ := h
  refine ⟨p, hp, ?_⟩
  cases p with
  | otherSection => simp at hop
  | codeSectionEntry ops =>
    simp only [List.any_eq_true] at hop ⊢
    obtain ⟨op, hmem, hfl⟩ := hop
    rw [isVmListedFloatOp_eq_is_float_op] at hfl
    exact ⟨op, hmem, is_float_op_imp_isFloatOperator op hfl⟩

/-- C3 (counterexample): a module whose code section contains only the
SIMD `f32x4.add` operator — a floating-point operation in the claim's
sense — is accepted by `enforce_soroban_compatibility`, because the
`matches!` list of `is_float_op` omits the SIMD f32x4/f64x2 arithmetic
operators (along with scalar float loads/stores and the SIMD float↔int
conversions). -/
theorem C3_counterexample :
    isFloatOperator .f32x4Add = true
    ∧ moduleHasFloatOperator [.codeSectionEntry [.f32x4Add]] = true
    ∧ enforce_soroban_compatibility [.codeSectionEntry [.f32x4Add]] = .ok () :=
  ⟨rfl, rfl, rfl⟩

/-- C3 (amended): `enforce_soroban_compatibility` returns an error
exactly on the modules whose code section contains an operator of the
`vm.rs` match list (scalar f32/f64 arithmetic, comparison, conversion
and constant operators, the f32x4/f64x2 splat and comparison operators,
and the scalar float→int truncations); in particular a module containing
no floating-point operator at all is accepted, but so are modules whose
only floating-point operators are outside that list, such as scalar
float loads/stores, SIMD f32x4/f64x2 arithmetic, or SIMD float↔int
conversions. -/
theorem C3_enforce_rejects_exactly_listed_float_ops (m : List Payload) :
    (enforce_soroban_compatibility m).isOk = !moduleHasListedFloatOp m
    ∧ (moduleHasFloatOperator m = false → enforce_soroban_compatibility m = .ok ()) := by
  have hiso : (enforce_soroban_compatibility m).isOk = !moduleHasListedFloatOp m := by
    unfold moduleHasListedFloatOp
    rw [isVmListedFloatOp_eq_is_float_op]
    exact enforce_isOk_eq_any m
  refine ⟨hiso, ?_⟩
  intro hno
  have hl : moduleHasListedFloatOp m = false := by
    cases hlv : moduleHasListedFloatOp m with
    | false => rfl
    | true => rw [moduleListed_imp_moduleFloat m hlv] at hno; exact absurd hno (by decide)
  rw [hl] at hiso
  cases he : enforce_soroban_compatibility m with
  | ok u => cases u; rfl
  | error e =>
    rw [he] at hiso
    simp [Except.isOk, Except.toBool] at hiso

/-- C3 (witness): a module containing only the non-float `i32.add`
operator is accepted, and the exact characterisation evaluates on a
module containing `f32.add`. -/
theorem C3_enforce_rejects_exactly_listed_float_ops_witness :
    enforce_soroban_compatibility [.codeSectionEntry [.nonFloat "I32Add"]] = .ok ()
    ∧ (enforce_soroban_compatibility [.codeSectionEntry [.f32Add]]).isOk
        = !moduleHasListedFloatOp [.codeSectionEntry [.f32Add]]
    ∧ moduleHasListedFloatOp [.codeSectionEntry [.f32Add]] = true :=
  ⟨(C3_enforce_rejects_exactly_listed_float_ops [.codeSectionEntry [.nonFloat "I32Add"]]).2 rfl,
    (C3_enforce_rejects_exactly_listed_float_ops [.codeSectionEntry [.f32Add]]).1, rfl⟩

/-! ## C1: the host-error response -/

/-- C1 (amended): for every request whose operation execution returns a
host error, the emitted response has status `"error"`, carries a
serialized `StructuredError` of type `"HostError"` and an attached
`WasmStackTrace` (plus the extracted VM offset), but its `events`,
`diagnostic_events` and `categorized_events` fields are empty — host
events collected before the trap are not included. -/
theorem C1_host_error_response_shape (ctx : ReportContext) (error_debug : String) :
    (respondToOutcome ctx (.okErr error_debug)).status = "error"
    ∧ (respondToOutcome ctx (.okErr error_debug)).error
        = some (structuredErrorJson
            { error_type := "HostError"
              message := decode_error error_debug
              details := some ("Contract execution failed with host error: "
                                 ++ decode_error error_debug) })
    ∧ (respondToOutcome ctx (.okErr error_debug)).stack_trace
        = some (WasmStackTrace.from_host_error error_debug)
    ∧ (respondToOutcome ctx (.okErr error_debug)).wasm_offset
        = extract_wasm_offset error_debug
    ∧ (respondToOutcome ctx (.okErr error_debug)).events = []
    ∧ (respondToOutcome ctx (.okErr error_debug)).diagnostic_events = []
    ∧ (respondToOutcome ctx (.okErr error_debug)).categorized_events = [] :=
  ⟨rfl, rfl, rfl, rfl, rfl, rfl, rfl⟩

/-- C1 (counterexample): with one host event collected before the trap,
the emitted host-error response carries no events at all — the events up
to the trap are not preserved, contradicting the claim. -/
theorem C1_counterexample :
    sampleCtx.hostEvents = .ok [sampleHostEvent]
    ∧ (respondToOutcome sampleCtx (.okErr "HostError: Error(WasmVm, InternalError)")).events = []
    ∧ (respondToOutcome sampleCtx
        (.okErr "HostError: Error(WasmVm, InternalError)")).diagnostic_events = []
    ∧ (respondToOutcome sampleCtx
        (.okErr "HostError: Error(WasmVm, InternalError)")).categorized_events = []
    ∧ (respondToOutcome sampleCtx (.okErr "HostError: Error(WasmVm, InternalError)")).status
        = "error" :=
  ⟨rfl, rfl, rfl, rfl, rfl⟩

/-! ## C5: memory-limit enforcement through the panic boundary -/

/-- C5: when the budget's consumed memory bytes exceed a configured
`memory_limit`, the check panics with a message containing
`ERR_MEMORY_LIMIT_EXCEEDED`, the dispatcher propagates the panic out of
`execute_operations`, and the panic boundary emits a response with
status `"error"`, `error_code = ERR_MEMORY_LIMIT_EXCEEDED`, and a logs
list whose first (and only) entry begins with `PANIC:`. -/
theorem C5_memory_limit_panic_response (L mem : Nat) (h : L < mem) :
    check_memory_limit_or_panic mem (some L) = some (memoryLimitPanicMessage mem L)
    ∧ strContains (memoryLimitPanicMessage mem L) ERR_MEMORY_LIMIT_EXCEEDED = true
    ∧ (∀ (host : HostModel) (ops : List Operation) (cov : CoverageTracker),
        host.memInitial = mem →
        (execute_operations host ops (some L) cov).1 = .panicked (memoryLimitPanicMessage mem L))
    ∧ ∀ (ctx : ReportContext),
        (respondToOutcome ctx (.panicked (memoryLimitPanicMessage mem L))).status = "error"
        ∧ (respondToOutcome ctx (.panicked (memoryLimitPanicMessage mem L))).error_code
            = some ERR_MEMORY_LIMIT_EXCEEDED
        ∧ (respondToOutcome ctx (.panicked (memoryLimitPanicMessage mem L))).logs
            = ["PANIC: " ++ memoryLimitPanicMessage mem L]
        ∧ strStartsWith ("PANIC: " ++ memoryLimitPanicMessage mem L) "PANIC:" = true := by
  have hcheck : check_memory_limit_or_panic mem (some L)
      = some (memoryLimitPanicMessage mem L) := by
    simp [check_memory_limit_or_panic, h]
  have hcontains : strContains (memoryLimitPanicMessage mem L) ERR_MEMORY_LIMIT_EXCEEDED = true :=
    strContains_self_append _ _
  refine ⟨hcheck, hcontains, ?_, ?_⟩
  · intro host ops cov hmem
    simp [execute_operations, hmem, hcheck]
  · intro ctx
    refine ⟨?_, ?_, ?_, ?_⟩
    · simp [respondToOutcome]
    · simp [respondToOutcome, hcontains]
    · simp [respondToOutcome]
    · exact strStartsWith_append_right "PANIC: " (memoryLimitPanicMessage mem L) "PANIC:"
        (by decide)

/-- C5 (witness): concrete instance at `memory_limit = 100` and 200
consumed bytes. -/
theorem C5_memory_limit_panic_response_witness :
    check_memory_limit_or_panic 200 (some 100) = some (memoryLimitPanicMessage 200 100)
    ∧ (execute_operations ⟨200, fun _ => ⟨.ok ⟨"v"⟩, 200⟩⟩ [] (some 100) ⟨[]⟩).1
        = .panicked (memoryLimitPanicMessage 200 100)
    ∧ (respondToOutcome sampleCtx (.panicked (memoryLimitPanicMessage 200 100))).error_code
        = some ERR_MEMORY_LIMIT_EXCEEDED
    ∧ (respondToOutcome sampleCtx (.panicked (memoryLimitPanicMessage 200 100))).status
        = "error" := by
  have h := C5_memory_limit_panic_response 100 200 (by decide)
  exact ⟨h.1, h.2.2.1 ⟨200, fun _ => ⟨.ok ⟨"v"⟩, 200⟩⟩ [] ⟨[]⟩ rfl,
    (h.2.2.2 sampleCtx).2.1, (h.2.2.2 sampleCtx).1⟩

/-! ## C4: the mocked fee check -/

theorem satUnits_bound : U64MAX / 10000 + U64MAX / 1024 ≤ U64MAX := by decide

theorem mocked_fee_eq_spec (request : SimulationRequest) (ops cpu mem : Nat)
    (hset : request.mock_base_fee ≠ none ∨ request.mock_gas_price ≠ none)
    (hcpu : cpu + 9999 ≤ U64MAX) (hmem : mem + 1023 ≤ U64MAX)
    (htot : specRequiredFee request ops cpu mem ≤ U64MAX) :
    mocked_required_fee_stroops request ops cpu mem
      = some (specRequiredFee request ops cpu mem) := by
  have h1 : satAdd cpu 9999 = cpu + 9999 := satAdd_of_le _ _ hcpu
  have h2 : satAdd mem 1023 = mem + 1023 := satAdd_of_le _ _ hmem
  have hcu : (cpu + 9999) / 10000 ≤ U64MAX / 10000 := Nat.div_le_div_right hcpu
  have hmu : (mem + 1023) / 1024 ≤ U64MAX / 1024 := Nat.div_le_div_right hmem
  have h3 : satAdd ((cpu + 9999) / 10000) ((mem + 1023) / 1024)
      = (cpu + 9999) / 10000 + (mem + 1023) / 1024 :=
    satAdd_of_le _ _ (le_trans (Nat.add_le_add hcu hmu) satUnits_bound)
  rcases hb : request.mock_base_fee with _ | b <;>
    rcases hg : request.mock_gas_price with _ | g
  · rw [hb, hg] at hset
    simp at hset
  · -- base fee unset, gas price set
    simp only [specRequiredFee, hb, hg] at htot ⊢
    have hg4 : satMul g (max 1 ((cpu + 9999) / 10000 + (mem + 1023) / 1024))
        = g * max 1 ((cpu + 9999) / 10000 + (mem + 1023) / 1024) :=
      satMul_of_le _ _ (by omega)
    simp only [mocked_required_fee_stroops, hb, hg, h1, h2, h3, Nat.max_comm _ 1, hg4]
    rw [satAdd_of_le _ _ (by omega)]
    simp
  · -- base fee set, gas price unset
    simp only [specRequiredFee, hb, hg] at htot ⊢
    have hb4 : satMul b ops = b * ops := satMul_of_le _ _ (by omega)
    simp only [mocked_required_fee_stroops, hb, hg, hb4]
    rw [satAdd_of_le _ _ (by omega)]
    simp
  · -- both set
    simp only [specRequiredFee, hb, hg] at htot ⊢
    have hb4 : satMul b ops = b * ops := satMul_of_le _ _ (by omega)
    have hg4 : satMul g (max 1 ((cpu + 9999) / 10000 + (mem + 1023) / 1024))
        = g * max 1 ((cpu + 9999) / 10000 + (mem + 1023) / 1024) :=
      satMul_of_le _ _ (by omega)
    simp only [mocked_required_fee_stroops, hb, hg, h1, h2, h3, Nat.max_comm _ 1, hb4, hg4]
    rw [satAdd_of_le 0 (b * ops) (by omega), Nat.zero_add,
      satAdd_of_le _ _ (by omega)]
    simp

/-- C4: with `mock_base_fee` or `mock_gas_price` set (and the `u64`
arithmetic staying below saturation), a successful execution computes
the required fee as `base_fee × ops_count + gas_price × max(1,
ceil(cpu/10000) + ceil(mem/1024))` (an unset field contributing
nothing); when the envelope's declared fee is strictly smaller, the
response degrades to status `"error"` with a message beginning
`insufficient fee (mocked)` while still carrying `budget_usage` and the
full event telemetry. -/
theorem C4_insufficient_mocked_fee (ctx : ReportContext) (exec_logs : List String)
    (evs : List HostEvent)
    (hev : ctx.hostEvents = .ok evs)
    (hset : ctx.request.mock_base_fee ≠ none ∨ ctx.request.mock_gas_price ≠ none)
    (hcpu : ctx.cpu_insns + 9999 ≤ U64MAX) (hmem : ctx.mem_bytes + 1023 ≤ U64MAX)
    (htot : specRequiredFee ctx.request (envelopeOperations ctx.envelope).length
              ctx.cpu_insns ctx.mem_bytes ≤ U64MAX)
    (hlt : transaction_fee_stroops ctx.envelope
            < specRequiredFee ctx.request (envelopeOperations ctx.envelope).length
                ctx.cpu_insns ctx.mem_bytes) :
    mocked_required_fee_stroops ctx.request (envelopeOperations ctx.envelope).length
        ctx.cpu_insns ctx.mem_bytes
      = some (specRequiredFee ctx.request (envelopeOperations ctx.envelope).length
          ctx.cpu_insns ctx.mem_bytes)
    ∧ (respondToOutcome ctx (.okOk exec_logs)).status = "error"
    ∧ (respondToOutcome ctx (.okOk exec_logs)).error
        = some (insufficientFeeMsg (transaction_fee_stroops ctx.envelope)
            (specRequiredFee ctx.request (envelopeOperations ctx.envelope).length
              ctx.cpu_insns ctx.mem_bytes))
    ∧ strStartsWith
        (insufficientFeeMsg (transaction_fee_stroops ctx.envelope)
          (specRequiredFee ctx.request (envelopeOperations ctx.envelope).length
            ctx.cpu_insns ctx.mem_bytes))
        "insufficient fee (mocked)" = true
    ∧ (respondToOutcome ctx (.okOk exec_logs)).budget_usage = some (budgetUsageOf ctx)
    ∧ (respondToOutcome ctx (.okOk exec_logs)).events = evs.map hostEventDbg
    ∧ (respondToOutcome ctx (.okOk exec_logs)).diagnostic_events = diagnosticEventsOf evs
    ∧ (respondToOutcome ctx (.okOk exec_logs)).categorized_events = categorize_events evs := by
  have hfee := mocked_fee_eq_spec ctx.request (envelopeOperations ctx.envelope).length
    ctx.cpu_insns ctx.mem_bytes hset hcpu hmem htot
  refine ⟨hfee, ?_, ?_, strStartsWith_self_append _ _, ?_, ?_, ?_, ?_⟩ <;>
    simp [respondToOutcome, hev, hfee, hlt]

/-- C4 (witness): `mock_base_fee = 100`, three operations, declared fee
100, zero resource usage: required fee 300, degraded error response with
telemetry. -/
theorem C4_insufficient_mocked_fee_witness :
    mocked_required_fee_stroops feeCtx.request (envelopeOperations feeCtx.envelope).length
        feeCtx.cpu_insns feeCtx.mem_bytes
      = some (specRequiredFee feeCtx.request (envelopeOperations feeCtx.envelope).length
          feeCtx.cpu_insns feeCtx.mem_bytes)
    ∧ specRequiredFee feeCtx.request (envelopeOperations feeCtx.envelope).length
        feeCtx.cpu_insns feeCtx.mem_bytes = 300
    ∧ (respondToOutcome feeCtx (.okOk [])).status = "error"
    ∧ (respondToOutcome feeCtx (.okOk [])).budget_usage = some (budgetUsageOf feeCtx) := by
  have h := C4_insufficient_mocked_fee feeCtx [] [sampleHostEvent] rfl
    (.inl (by decide)) (by decide) (by decide) (by decide) (by decide)
  exact ⟨h.1, by decide, h.2.1, h.2.2.2.2.1⟩

/-! ## C7: `result_meta_xdr` handling -/

/-- C7 (amended): `result_meta_xdr` is a required request field (its
absence fails serde deserialization and aborts the request with an
`Invalid JSON` response); once the field is present, result-metadata
decoding is best-effort — an empty, undecodable or unparseable value
never aborts the pipeline, it degrades to no preloaded metadata with a
warning beginning `Warning:`. -/
theorem C7_result_meta_best_effort (d : PreludeDecoders) (j : RequestJson)
    (req : SimulationRequest) (bytes : List Nat) (env : TransactionEnvelope)
    (hreq : parseRequest j = .ok req)
    (hb : d.base64Decode req.envelope_xdr = .ok bytes)
    (henv : d.parseEnvelope bytes = .ok env) :
    mainPrelude d j
      = .proceeding req env (decodeResultMeta d req.result_meta_xdr).1
          (decodeResultMeta d req.result_meta_xdr).2
    ∧ ((decodeResultMeta d req.result_meta_xdr).1 = none →
        (decodeResultMeta d req.result_meta_xdr).2 ≠ []
        ∧ ∀ w ∈ (decodeResultMeta d req.result_meta_xdr).2,
            strStartsWith w "Warning:" = true) := by
  constructor
  · simp [mainPrelude, hreq, hb, henv]
  · intro hnone
    unfold decodeResultMeta at hnone ⊢
    by_cases hempty : req.result_meta_xdr.isEmpty
    · simp only [hempty, if_true]
      refine ⟨List.cons_ne_nil _ _, ?_⟩
      intro w hw
      simp only [List.mem_singleton] at hw
      subst hw
      decide
    · simp only [hempty, if_false] at hnone ⊢
      cases hdec : d.base64Decode req.result_meta_xdr with
      | error e =>
        simp only [hdec]
        refine ⟨List.cons_ne_nil _ _, ?_⟩
        intro w hw
        simp at hw
        subst hw
        exact strStartsWith_append_right _ _ _
          (strStartsWith_append_right _ _ _ (by decide))
      | ok bs =>
        simp only [hdec] at hnone ⊢
        by_cases hbs : bs.isEmpty
        · simp only [hbs, if_true]
          refine ⟨List.cons_ne_nil _ _, ?_⟩
          intro w hw
          simp at hw
          subst hw
          decide
        · simp only [hbs, if_false] at hnone ⊢
          cases hparse : d.parseResultMeta bs with
          | error e =>
            simp only [hparse]
            refine ⟨List.cons_ne_nil _ _, ?_⟩
            intro w hw
            simp at hw
            subst hw
            exact strStartsWith_append_right _ _ _
              (strStartsWith_append_right _ _ _ (by decide))
          | ok meta =>
            simp [hparse] at hnone
  
/-- C7 (counterexample): a request JSON that is valid except that
`result_meta_xdr` is absent fails serde deserialization outright — the
simulation aborts with an `Invalid JSON` error response instead of
proceeding without storage preload, so the field is not optional. -/
theorem C7_counterexample :
    mainPrelude trivialDecoders requestJsonNoMeta
      = .invalidRequest (invalidJsonResponse (missingFieldMsg "result_meta_xdr")) := rfl

/-- C7 (witness): a present but undecodable `result_meta_xdr` proceeds
with no metadata and a warning. -/
theorem C7_result_meta_best_effort_witness :
    mainPrelude pickyDecoders requestJsonBadMeta
      = .proceeding badMetaRequest (.tx 0 [])
          (decodeResultMeta pickyDecoders badMetaRequest.result_meta_xdr).1
          (decodeResultMeta pickyDecoders badMetaRequest.result_meta_xdr).2
    ∧ (decodeResultMeta pickyDecoders badMetaRequest.result_meta_xdr).1 = none
    ∧ (decodeResultMeta pickyDecoders badMetaRequest.result_meta_xdr).2 ≠ [] := by
  have h := C7_result_meta_best_effort pickyDecoders requestJsonBadMeta badMetaRequest
    [0] (.tx 0 []) rfl rfl rfl
  exact ⟨h.1, rfl, (h.2 rfl).1⟩

/-! ## C8: the local WASM loader -/

/-- C8 (counterexample): a 65537-byte file that does not begin with the
magic is rejected as `InvalidMagic`, not `TooLarge` — the magic check
runs before the size check, so the claim's `TooLarge for any file over
64 KiB` fails. -/
theorem C8_counterexample :
    (List.replicate 65537 (0 : Nat)).length = 65537
    ∧ MAX_WASM_SIZE = 65536
    ∧ load_wasm_from_path (some (List.replicate 65537 (0 : Nat))) = .error .invalidMagic := by
  have hlen : (List.replicate 65537 (0 : Nat)).length = 65537 := by
    rw [List.length_replicate]
  have htake : (List.replicate 65537 (0 : Nat)).take 4 = List.replicate 4 0 := by
    rw [List.take_replicate]
    norm_num
  refine ⟨hlen, rfl, ?_⟩
  have h4 : ¬ (List.replicate 65537 (0 : Nat)).length < 4 := by
    rw [hlen]; omega
  have hne : (List.replicate 65537 (0 : Nat)).take 4 ≠ WASM_MAGIC := by
    rw [htake]; decide
  simp only [load_wasm_from_path]
  rw [if_neg h4, if_pos hne]

/-- C8 (amended): a readable file beginning with the four magic bytes
loads when its total size is at most 64 KiB (in particular at exactly
64 KiB) and is rejected as `TooLarge` above 64 KiB; a file of at least
four bytes not beginning with the magic is rejected as `InvalidMagic`
regardless of its size (the magic check precedes the size check), while
a file shorter than four bytes fails with an I/O error instead. -/
theorem C8_load_wasm_from_path_cases (contents : List Nat) :
    (contents.take 4 = WASM_MAGIC → contents.length ≤ MAX_WASM_SIZE →
       load_wasm_from_path (some contents) = .ok contents)
    ∧ (contents.take 4 = WASM_MAGIC → MAX_WASM_SIZE < contents.length →
       load_wasm_from_path (some contents)
         = .error (.tooLarge contents.length MAX_WASM_SIZE))
    ∧ (4 ≤ contents.length → contents.take 4 ≠ WASM_MAGIC →
       load_wasm_from_path (some contents) = .error .invalidMagic)
    ∧ (contents.length < 4 →
       load_wasm_from_path (some contents) = .error (.io "failed to fill whole buffer")) := by
  have hlen4 : contents.take 4 = WASM_MAGIC → 4 ≤ contents.length := by
    intro h
    have hl := congrArg List.length h
    simp only [List.length_take, WASM_MAGIC, List.length_cons, List.length_nil] at hl
    omega
  refine ⟨?_, ?_, ?_, ?_⟩
  · intro hmagic hle
    have h4 := hlen4 hmagic
    simp [load_wasm_from_path, Nat.not_lt.mpr h4, hmagic, Nat.not_lt.mpr hle]
  · intro hmagic hgt
    have h4 := hlen4 hmagic
    simp [load_wasm_from_path, Nat.not_lt.mpr h4, hmagic, hgt]
  · intro h4 hmagic
    simp [load_wasm_from_path, Nat.not_lt.mpr h4, hmagic]
  · intro hlt
    simp [load_wasm_from_path, hlt]

/-- C8 (witness): a 64 KiB magic-prefixed file loads, a 64 KiB + 1 byte
magic-prefixed file is `TooLarge`, and a five-byte non-magic file is
`InvalidMagic`. -/
theorem C8_load_wasm_from_path_cases_witness :
    load_wasm_from_path (some wasmOkBytes) = .ok wasmOkBytes
    ∧ load_wasm_from_path (some wasmBigBytes)
        = .error (.tooLarge wasmBigBytes.length MAX_WASM_SIZE)
    ∧ load_wasm_from_path (some wasmBadBytes) = .error .invalidMagic := by
  refine ⟨(C8_load_wasm_from_path_cases wasmOkBytes).1 ?_ ?_,
    (C8_load_wasm_from_path_cases wasmBigBytes).2.1 ?_ ?_,
    (C8_load_wasm_from_path_cases wasmBadBytes).2.2.1 ?_ ?_⟩
  · rw [wasmOkBytes]
    exact List.take_left' rfl
  · rw [wasmOkBytes, List.length_append, List.length_replicate]
    decide
  · rw [wasmBigBytes]
    exact List.take_left' rfl
  · rw [wasmBigBytes, List.length_append, List.length_replicate]
    decide
  · decide
  · decide

/-! ## C9: snapshot construction accepts exactly the decodable maps -/

theorem fromBase64MapGo_isOk (c : XdrCodec) (pairs : List (String × String)) :
    ∀ acc, ((fromBase64MapGo c acc pairs).isOk = true
      ↔ ∀ p ∈ pairs, (decode_ledger_key c p.1).isOk = true
          ∧ (decode_ledger_entry c p.2).isOk = true) := by
  induction pairs with
  | nil =>
    intro acc
    simp [fromBase64MapGo, Except.isOk, Except.toBool]
  | cons p rest ih =>
    intro acc
    obtain ⟨k, e⟩ := p
    cases hk : decode_ledger_key c k with
    | error err =>
      simp [fromBase64MapGo, hk, Except.isOk, Except.toBool]
    | ok key =>
      cases he : decode_ledger_entry c e with
      | error err =>
        simp [fromBase64MapGo, hk, he, Except.isOk, Except.toBool]
      | ok entry =>
        simp only [fromBase64MapGo, hk, he]
        rw [ih (insertEntry acc (c.encodeKey key) entry)]
        constructor
        · intro h p hp
          rcases List.mem_cons.mp hp with h1 | h2
          · subst h1
            exact ⟨by simp [hk, Except.isOk, Except.toBool],
              by simp [he, Except.isOk, Except.toBool]⟩
          · exact h p h2
        · intro h p hp
          exact h p (List.mem_cons_of_mem _ hp)

/-- C9: `LedgerSnapshot::from_base64_map` returns `Ok` exactly when
every pair of the input map passes `decode_ledger_key` and
`decode_ledger_entry`; an empty base64 string, and a payload decoding to
zero bytes, are decode errors rather than empty-valid values. -/
theorem C9_from_base64_map_accepts_exactly_decodable (c : XdrCodec)
    (pairs : List (String × String)) :
    ((LedgerSnapshot.from_base64_map c pairs).isOk = true
      ↔ ∀ p ∈ pairs, (decode_ledger_key c p.1).isOk = true
          ∧ (decode_ledger_entry c p.2).isOk = true)
    ∧ decode_ledger_key c "" = .error (.base64Decode "LedgerKey: empty payload")
    ∧ decode_ledger_entry c "" = .error (.base64Decode "LedgerEntry: empty payload")
    ∧ (∀ s, s.isEmpty = false → c.base64Decode s = .ok [] →
        decode_ledger_key c s = .error (.base64Decode "LedgerKey: decoded payload is empty"))
    ∧ (∀ s, s.isEmpty = false → c.base64Decode s = .ok [] →
        decode_ledger_entry c s
          = .error (.base64Decode "LedgerEntry: decoded payload is empty")) := by
  refine ⟨?_, rfl, rfl, ?_, ?_⟩
  · rw [← fromBase64MapGo_isOk c pairs []]
    unfold LedgerSnapshot.from_base64_map
    cases fromBase64MapGo c [] pairs <;> simp [Except.isOk, Except.toBool]
  · intro s hs hdec
    simp [decode_ledger_key, hs, hdec]
  · intro s hs hdec
    simp [decode_ledger_entry, hs, hdec]

/-- C9 (witness): a one-pair map whose key and entry both decode is
accepted; a non-empty base64 string decoding to zero bytes is a decode
error. -/
theorem C9_from_base64_map_accepts_exactly_decodable_witness :
    (LedgerSnapshot.from_base64_map sampleCodec [("k", "k")]).isOk = true
    ∧ decode_ledger_key
        ⟨fun _ => .ok [], fun _ => .ok ⟨"key"⟩, fun _ => .ok ⟨"entry"⟩, fun _ => [9]⟩ "x"
        = .error (.base64Decode "LedgerKey: decoded payload is empty") := by
  refine ⟨(C9_from_base64_map_accepts_exactly_decodable sampleCodec [("k", "k")]).1.mpr ?_,
    (C9_from_base64_map_accepts_exactly_decodable
      ⟨fun _ => .ok [], fun _ => .ok ⟨"key"⟩, fun _ => .ok ⟨"entry"⟩, fun _ => [9]⟩
      []).2.2.2.1 "x" (by decide) rfl⟩
  intro p hp
  simp only [List.mem_singleton] at hp
  subst hp
  exact ⟨rfl, rfl⟩

/-! ## C10: every recorded function counts as hit -/

theorem satAdd_one_pos (v : Nat) : 1 ≤ satAdd v 1 := by
  refine Nat.le_min.mpr ⟨by omega, by decide⟩

theorem bumpLabel_counts_pos (l : List (String × Nat)) (label : String)
    (h : ∀ q ∈ l, 1 ≤ q.2) : ∀ p ∈ bumpLabel l label, 1 ≤ p.2 := by
  induction l with
  | nil =>
    intro p hp
    simp only [bumpLabel, List.mem_singleton] at hp
    subst hp
    exact satAdd_one_pos 0
  | cons q rest ih =>
    intro p hp
    obtain ⟨k, v⟩ := q
    by_cases hk : k = label
    · simp only [bumpLabel, hk, if_true] at hp
      rcases List.mem_cons.mp hp with h1 | h2
      · subst h1; exact satAdd_one_pos v
      · exact h p (List.mem_cons_of_mem _ h2)
    · simp only [bumpLabel, hk, if_false] at hp
      rcases List.mem_cons.mp hp with h1 | h2
      · subst h1; exact h (k, v) (List.mem_cons_self _ _)
      · exact ih (fun q hq => h q (List.mem_cons_of_mem _ hq)) p h2

theorem record_operation_counts_pos (cov : CoverageTracker) (op : Operation)
    (h : ∀ q ∈ cov.invoked_functions, 1 ≤ q.2) :
    ∀ p ∈ (record_operation cov op).invoked_functions, 1 ≤ p.2 := by
  cases op with
  | mk body =>
    cases body with
    | invokeHostFunction hf => exact bumpLabel_counts_pos _ _ h
    | otherOperation name => exact h

theorem foldl_record_counts_pos (ops : List Operation) :
    ∀ (cov : CoverageTracker), (∀ q ∈ cov.invoked_functions, 1 ≤ q.2) →
      ∀ p ∈ (ops.foldl record_operation cov).invoked_functions, 1 ≤ p.2 := by
  induction ops with
  | nil => intro cov h; simpa using h
  | cons op rest ih =>
    intro cov h
    simpa using ih (record_operation cov op) (record_operation_counts_pos cov op h)

theorem insertByName_mem (p q : String × Nat) (l : List (String × Nat))
    (h : p ∈ insertByName q l) : p = q ∨ p ∈ l := by
  induction l with
  | nil =>
    simp only [insertByName, List.mem_singleton] at h
    exact Or.inl h
  | cons r rest ih =>
    by_cases hle : strLeChars q.1.data r.1.data = true
    · simp only [insertByName, hle, if_true] at h
      rcases List.mem_cons.mp h with h1 | h2
      · exact Or.inl h1
      · exact Or.inr h2
    · simp only [insertByName, hle, if_false] at h
      rcases List.mem_cons.mp h with h1 | h2
      · exact Or.inr (h1 ▸ List.mem_cons_self _ _)
      · rcases ih h2 with h3 | h4
        · exact Or.inl h3
        · exact Or.inr (List.mem_cons_of_mem _ h4)

theorem sortByName_mem (p : String × Nat) (l : List (String × Nat))
    (h : p ∈ sortByName l) : p ∈ l := by
  induction l generalizing p with
  | nil => simp [sortByName] at h
  | cons q rest ih =>
    simp only [sortByName, List.foldr_cons] at h
    rcases insertByName_mem p q _ h with h1 | h2
    · exact h1 ▸ List.mem_cons_self _ _
    · exact List.mem_cons_of_mem _ (ih p h2)

theorem filter_all_length {α : Type} (pr : α → Bool) (l : List α)
    (h : ∀ a ∈ l, pr a = true) : (l.filter pr).length = l.length := by
  induction l with
  | nil => rfl
  | cons a rest ih =>
    simp only [List.filter_cons, h a (List.mem_cons_self _ _), if_true]
    simpa using ih fun b hb => h b (List.mem_cons_of_mem _ hb)

theorem strContains_concat_of_eq (s pre pat post : String) (h : s = pre ++ (pat ++ post)) :
    strContains s pat = true := by
  subst h
  exact strContains_append_right _ _ _ (strContains_self_append _ _)

/-- C10: a coverage tracker populated only through `record_operation`
gives every recorded function an invocation count of at least 1, so in
every report of `generate_lcov_report` the FNH value equals the FNF
value, and the report prints the `FNH:` line with the same number as the
`FNF:` line. -/
theorem C10_lcov_fnh_equals_fnf (ops : List Operation) (source_file : String) :
    (∀ p ∈ (ops.foldl record_operation ⟨[]⟩).invoked_functions, 1 ≤ p.2)
    ∧ lcovFnh (ops.foldl record_operation ⟨[]⟩) = lcovFnf (ops.foldl record_operation ⟨[]⟩)
    ∧ strContains (generate_lcov_report (ops.foldl record_operation ⟨[]⟩) source_file)
        ("FNF:" ++ toString (lcovFnf (ops.foldl record_operation ⟨[]⟩)) ++ "\n") = true
    ∧ strContains (generate_lcov_report (ops.foldl record_operation ⟨[]⟩) source_file)
        ("FNH:" ++ toString (lcovFnf (ops.foldl record_operation ⟨[]⟩)) ++ "\n") = true := by
  have hinv : ∀ p ∈ (ops.foldl record_operation ⟨[]⟩).invoked_functions, 1 ≤ p.2 :=
    foldl_record_counts_pos ops ⟨[]⟩ (by simp)
  have hsorted : ∀ p ∈ lcovFunctions (ops.foldl record_operation ⟨[]⟩), (0 < p.2 : Bool) = true := by
    intro p hp
    have := hinv p (sortByName_mem p _ hp)
    simp only [decide_eq_true_eq]
    omega
  have hfnh : lcovFnh (ops.foldl record_operation ⟨[]⟩)
      = lcovFnf (ops.foldl record_operation ⟨[]⟩) :=
    filter_all_length _ _ hsorted
  refine ⟨hinv, hfnh, ?_, ?_⟩
  · exact strContains_concat_of_eq _
      ("TN:simulator\n" ++ "SF:" ++ source_file ++ "\n"
        ++ String.join ((lcovFunctions (ops.foldl record_operation ⟨[]⟩)).enum.map fun ip =>
            "FN:" ++ toString (ip.1 + 1) ++ "," ++ sanitizeLabel ip.2.1 ++ "\n")
        ++ String.join ((lcovFunctions (ops.foldl record_operation ⟨[]⟩)).map fun p =>
            "FNDA:" ++ toString p.2 ++ "," ++ sanitizeLabel p.1 ++ "\n"))
      _
      ("FNH:" ++ toString (lcovFnh (ops.foldl record_operation ⟨[]⟩)) ++ "\n"
        ++ "DA:1,1\n" ++ "LF:1\n" ++ "LH:1\n" ++ "end_of_record\n")
      (by refine String.ext ?_
          simp [generate_lcov_report, String.data_append, List.append_assoc])
  · rw [← hfnh]
    exact strContains_concat_of_eq _
      ("TN:simulator\n" ++ "SF:" ++ source_file ++ "\n"
        ++ String.join ((lcovFunctions (ops.foldl record_operation ⟨[]⟩)).enum.map fun ip =>
            "FN:" ++ toString (ip.1 + 1) ++ "," ++ sanitizeLabel ip.2.1 ++ "\n")
        ++ String.join ((lcovFunctions (ops.foldl record_operation ⟨[]⟩)).map fun p =>
            "FNDA:" ++ toString p.2 ++ "," ++ sanitizeLabel p.1 ++ "\n")
        ++ "FNF:" ++ toString (lcovFnf (ops.foldl record_operation ⟨[]⟩)) ++ "\n")
      _
      ("DA:1,1\n" ++ "LF:1\n" ++ "LH:1\n" ++ "end_of_record\n")
      (by refine String.ext ?_
          simp [generate_lcov_report, String.data_append, List.append_assoc])

/-! ## C6: the source-offset lookup -/

theorem binarySearchGo_spec (xs : List Nat) (key : Nat)
    (hs : ∀ i j, i < j → j < xs.length → xs.getD i 0 < xs.getD j 0) :
    ∀ (n left right : Nat), right - left = n → left ≤ right → right ≤ xs.length →
    (∀ j, j < left → xs.getD j 0 < key) →
    (∀ j, right ≤ j → j < xs.length → key < xs.getD j 0) →
    match binarySearchGo xs key left right with
    | .ok i => i < xs.length ∧ xs.getD i 0 = key
    | .error i => i ≤ xs.length
        ∧ (∀ j, j < i → xs.getD j 0 < key)
        ∧ (∀ j, i ≤ j → j < xs.length → key < xs.getD j 0) := by
  intro n
  induction n using Nat.strong_induction_on with
  | _ n ih =>
    intro left right hn hlr hrlen hlow hhigh
    rw [binarySearchGo]
    by_cases hltr : left < right
    · rw [if_pos hltr]
      have hmidlt : left + (right - left) / 2 < right := by omega
      have hmidge : left ≤ left + (right - left) / 2 := by omega
      have hmidlen : left + (right - left) / 2 < xs.length := lt_of_lt_of_le hmidlt hrlen
      by_cases h1 : xs.getD (left + (right - left) / 2) 0 < key
      · rw [if_pos h1]
        refine ih (right - (left + (right - left) / 2 + 1)) (by omega)
          (left + (right - left) / 2 + 1) right rfl (by omega) hrlen ?_ hhigh
        intro j hj
        rcases Nat.lt_or_ge j left with hjl | hjl
        · exact hlow j hjl
        · rcases Nat.lt_or_ge j (left + (right - left) / 2) with hjm | hjm
          · exact lt_trans (hs j _ hjm hmidlen) h1
          · have hje : j = left + (right - left) / 2 := by omega
            rw [hje]
            exact h1
      · rw [if_neg h1]
        by_cases h2 : key < xs.getD (left + (right - left) / 2) 0
        · rw [if_pos h2]
          refine ih ((left + (right - left) / 2) - left) (by omega)
            left (left + (right - left) / 2) rfl (by omega)
            (le_of_lt hmidlen) hlow ?_
          intro j hjge hjlen
          rcases Nat.lt_or_ge (left + (right - left) / 2) j with hjm | hjm
          · exact lt_trans h2 (hs _ j hjm hjlen)
          · have hje : j = left + (right - left) / 2 := by omega
            rw [hje]
            exact h2
        · rw [if_neg h2]
          exact ⟨hmidlen, by omega⟩
    · rw [if_neg hltr]
      refine ⟨by omega, hlow, ?_⟩
      intro j hj hjlen
      exact hhigh j (by omega) hjlen

/-- C6: a source mapper built from a WASM binary lacking `.debug_info`
or `.debug_line` maps every offset to `none`; on a mapper whose cached
starts are strictly sorted (the invariant `build_line_cache` establishes
by sorting and last-writer-wins dedup), `map_wasm_offset_to_source`
returns the location of the cache entry with the largest `start ≤
offset` — enriched with a git permalink when a repository was detected —
except that it returns `none` when no such entry exists or when that
entry has a closed `end` with `offset ≥ end`. -/
theorem C6_map_wasm_offset_to_source_lookup :
    (∀ (w : WasmDebugInfo) (git : Option GitRepository) (off : Nat),
        w.hasDebugInfo = false ∨ w.hasDebugLine = false →
        (SourceMapper.new w git).map_wasm_offset_to_source off = none)
    ∧ ∀ (m : SourceMapper) (off : Nat),
        m.has_symbols = true →
        (∀ i j, i < j → j < m.line_cache.length →
          (m.line_cache.map CachedLineEntry.start).getD i 0
            < (m.line_cache.map CachedLineEntry.start).getD j 0) →
        ((∀ j, j < m.line_cache.length →
            off < (m.line_cache.map CachedLineEntry.start).getD j 0) →
          m.map_wasm_offset_to_source off = none)
        ∧ ∀ i, IsLargestStartLE m.line_cache off i →
            ∀ entry, m.line_cache.get? i = some entry →
              m.map_wasm_offset_to_source off
                = match entry.endOff with
                  | some en =>
                    if en ≤ off then none else some (applyGitLink m.git_repo entry.location)
                  | none => some (applyGitLink m.git_repo entry.location) := by
  constructor
  · intro w git off hw
    have hcheck : check_debug_symbols w = false := by
      rcases hw with h | h <;> simp [check_debug_symbols, h]
    simp [SourceMapper.new, SourceMapper.map_wasm_offset_to_source, hcheck]
  · intro m off hsym hs
    by_cases hemp : m.line_cache.isEmpty
    · constructor
      · intro _
        simp [SourceMapper.map_wasm_offset_to_source, hsym, hemp]
      · intro i hlarg entry hent
        exfalso
        have hi := hlarg.1
        rw [List.isEmpty_iff] at hemp
        rw [hemp] at hi
        simp at hi
    · have hlen0 : 0 < m.line_cache.length := by
        rw [List.isEmpty_iff] at hemp
        exact List.length_pos.mpr hemp
      have hs' : ∀ i j, i < j → j < (m.line_cache.map CachedLineEntry.start).length →
          (m.line_cache.map CachedLineEntry.start).getD i 0
            < (m.line_cache.map CachedLineEntry.start).getD j 0 := by
        simpa [List.length_map] using hs
      have hspec := binarySearchGo_spec (m.line_cache.map CachedLineEntry.start) off hs'
        ((m.line_cache.map CachedLineEntry.start).length - 0) 0
        (m.line_cache.map CachedLineEntry.start).length rfl (Nat.zero_le _) le_rfl
        (fun j hj => absurd hj (Nat.not_lt_zero j))
        (fun j h1 h2 => absurd (lt_of_le_of_lt h1 h2) (lt_irrefl _))
      have hbody : m.map_wasm_offset_to_source off
          = match binarySearchGo (m.line_cache.map CachedLineEntry.start) off 0
              (m.line_cache.map CachedLineEntry.start).length with
            | .ok index =>
              (match m.line_cache.get? index with
               | none => none
               | some entry =>
                 match entry.endOff with
                 | some en =>
                   if en ≤ off then none else some (applyGitLink m.git_repo entry.location)
                 | none => some (applyGitLink m.git_repo entry.location))
            | .error 0 => none
            | .error index =>
              (match m.line_cache.get? (index - 1) with
               | none => none
               | some entry =>
                 match entry.endOff with
                 | some en =>
                   if en ≤ off then none else some (applyGitLink m.git_repo entry.location)
                 | none => some (applyGitLink m.git_repo entry.location)) := by
        have hemp' : m.line_cache.isEmpty = false := by simpa using hemp
        rw [SourceMapper.map_wasm_offset_to_source, if_neg (by simp [hsym, hemp'])]
        dsimp only
        cases binarySearchGo (m.line_cache.map CachedLineEntry.start) off 0
            (m.line_cache.map CachedLineEntry.start).length with
        | ok index => rfl
        | error index => cases index <;> rfl
      cases hbs : binarySearchGo (m.line_cache.map CachedLineEntry.start) off 0
          (m.line_cache.map CachedLineEntry.start).length with
      | ok t =>
        rw [hbs] at hspec hbody
        obtain ⟨htlen, htval⟩ := hspec
        have htlen' : t < m.line_cache.length := by
          rw [List.length_map] at htlen
          exact htlen
        constructor
        · intro hall
          have h := hall t htlen'
          rw [htval] at h
          exact absurd h (lt_irrefl off)
        · intro i hlarg entry hent
          have hit : i = t := by
            have h1 : t ≤ i := hlarg.2.2 t htlen' (le_of_eq htval)
            rcases Nat.lt_or_ge t i with hlt | hge
            · exfalso
              have h2 := hs t i hlt hlarg.1
              rw [htval] at h2
              exact absurd (lt_of_lt_of_le h2 hlarg.2.1) (lt_irrefl off)
            · omega
          subst hit
          rw [hbody]
          dsimp only
          rw [hent]
      | error t =>
        rw [hbs] at hspec hbody
        obtain ⟨htlen, hlow, hhigh⟩ := hspec
        rw [List.length_map] at htlen
        cases t with
        | zero =>
          constructor
          · intro _
            exact hbody
          · intro i hlarg entry hent
            exfalso
            have h1 := hhigh i (Nat.zero_le _) (by rw [List.length_map]; exact hlarg.1)
            exact absurd (lt_of_lt_of_le h1 hlarg.2.1) (lt_irrefl off)
        | succ t' =>
          have ht' : t' < m.line_cache.length := by omega
          have hlowt' := hlow t' (Nat.lt_succ_self t')
          constructor
          · intro hall
            exact absurd (lt_trans (hall t' ht') hlowt') (lt_irrefl _)
          · intro i hlarg entry hent
            have hit : i = t' := by
              have h1 : t' ≤ i := hlarg.2.2 t' ht' (le_of_lt hlowt')
              have h2 : i ≤ t' := by
                by_contra hcon
                have h3 := hhigh i (by omega) (by rw [List.length_map]; exact hlarg.1)
                exact absurd (lt_of_lt_of_le h3 hlarg.2.1) (lt_irrefl off)
              omega
            subst hit
            rw [hbody]
            simp only [Nat.add_sub_cancel, hent]

/-- C6 (witness): a WASM without `.debug_info` maps offset `0x1234` to
`none`; on the two-entry sample cache, offset `0x18` falls in
`[0x10, 0x20)` and maps to the first entry's location. -/
theorem C6_map_wasm_offset_to_source_lookup_witness :
    (SourceMapper.new debugInfoMissing none).map_wasm_offset_to_source 0x1234 = none
    ∧ sampleMapper.map_wasm_offset_to_source 0x18 = some entryA.location := by
  have h := C6_map_wasm_offset_to_source_lookup
  refine ⟨h.1 debugInfoMissing none 0x1234 (Or.inl rfl), ?_⟩
  have hs : ∀ i j, i < j → j < sampleMapper.line_cache.length →
      (sampleMapper.line_cache.map CachedLineEntry.start).getD i 0
        < (sampleMapper.line_cache.map CachedLineEntry.start).getD j 0 := by
    intro i j hij hj
    have hlen : sampleMapper.line_cache.length = 2 := rfl
    rw [hlen] at hj
    interval_cases j
    · omega
    · have hi : i = 0 := by omega
      subst hi
      decide
  have hlarg : IsLargestStartLE sampleMapper.line_cache 0x18 0 := by
    refine ⟨by decide, by decide, ?_⟩
    intro j hj hle
    have hlen : sampleMapper.line_cache.length = 2 := rfl
    rw [hlen] at hj
    interval_cases j
    · exact Nat.le_refl 0
    · exact absurd hle (by decide)
  have h2 := (h.2 sampleMapper 0x18 rfl hs).2 0 hlarg entryA rfl
  exact h2.trans rfl

/-- C10 (witness): two recorded `InvokeContract` operations give a
tracker whose FNH equals its FNF. -/
theorem C10_lcov_fnh_equals_fnf_witness :
    lcovFnh ([(⟨.invokeHostFunction (.invokeContract ⟨"transfer"⟩)⟩ : Operation),
        ⟨.invokeHostFunction (.invokeContract ⟨"init"⟩)⟩].foldl record_operation ⟨[]⟩)
      = lcovFnf ([(⟨.invokeHostFunction (.invokeContract ⟨"transfer"⟩)⟩ : Operation),
          ⟨.invokeHostFunction (.invokeContract ⟨"init"⟩)⟩].foldl record_operation ⟨[]⟩)
    ∧ lcovFnf ([(⟨.invokeHostFunction (.invokeContract ⟨"transfer"⟩)⟩ : Operation),
        ⟨.invokeHostFunction (.invokeContract ⟨"init"⟩)⟩].foldl record_operation ⟨[]⟩) = 2 := by
  refine ⟨(C10_lcov_fnh_equals_fnf [⟨.invokeHostFunction (.invokeContract ⟨"transfer"⟩)⟩,
    ⟨.invokeHostFunction (.invokeContract ⟨"init"⟩)⟩] "contract.wasm").2.1, by decide⟩
